import Mathlib

/-!
Shallow embedding of the season & postseason progression engine of the
`trade` repository (front-end files `static/Game_sims.js`, `static/ui.js`,
`static/llm.js`, and the global state module).

Modelling conventions:
* JS objects become structures; `null`/`undefined` fields become `Option`.
* Calendar dates are nonempty ISO strings in the source, parsed with
  `new Date` to millisecond timestamps; we model a date as its integer
  millisecond value (`Int`).  `Math.floor(diffMs / 86400000)` on integer
  inputs is exactly `Int.fdiv diffMs 86400000`.  JS truthiness of a date
  string corresponds to the `Option` being `some` (dates are nonempty).
* Server interactions are oracles passed as parameters: `none` models a
  non-ok response or a transport exception (both end in the same
  early-return/catch in the source), `some v` a parsed success payload.
* Functions that fetch return the number of fetches performed alongside
  the new state, so fetch counts can be stated.
* DOM writes (labels, tables, alerts, logs) are outside the model.
-/

namespace Trade

/-- One element of the `TEAMS` constant (ui state module); the engine only
reads `id` and `name`. -/
structure Team where
  id : String
  name : String
deriving Repr, DecidableEq

/-- The `TEAMS` constant (ids and names; presentation-only fields omitted). -/
def TEAMS : List Team :=
  [⟨"ATL", "Atlanta Hawks"⟩, ⟨"BOS", "Boston Celtics"⟩, ⟨"BKN", "Brooklyn Nets"⟩,
   ⟨"CHA", "Charlotte Hornets"⟩, ⟨"CHI", "Chicago Bulls"⟩, ⟨"CLE", "Cleveland Cavaliers"⟩,
   ⟨"DAL", "Dallas Mavericks"⟩, ⟨"DEN", "Denver Nuggets"⟩, ⟨"DET", "Detroit Pistons"⟩,
   ⟨"GSW", "Golden State Warriors"⟩, ⟨"HOU", "Houston Rockets"⟩, ⟨"IND", "Indiana Pacers"⟩,
   ⟨"LAC", "LA Clippers"⟩, ⟨"LAL", "Los Angeles Lakers"⟩, ⟨"MEM", "Memphis Grizzlies"⟩,
   ⟨"MIA", "Miami Heat"⟩, ⟨"MIL", "Milwaukee Bucks"⟩, ⟨"MIN", "Minnesota Timberwolves"⟩,
   ⟨"NOP", "New Orleans Pelicans"⟩, ⟨"NYK", "New York Knicks"⟩, ⟨"OKC", "Oklahoma City Thunder"⟩,
   ⟨"ORL", "Orlando Magic"⟩, ⟨"PHI", "Philadelphia 76ers"⟩, ⟨"PHX", "Phoenix Suns"⟩,
   ⟨"POR", "Portland Trail Blazers"⟩, ⟨"SAC", "Sacramento Kings"⟩, ⟨"SAS", "San Antonio Spurs"⟩,
   ⟨"TOR", "Toronto Raptors"⟩, ⟨"UTA", "Utah Jazz"⟩, ⟨"WAS", "Washington Wizards"⟩]

/-- A schedule entry as stored in `appState.cachedViews.schedule.games`. -/
structure ScheduleGame where
  game_id : String
  date : Int
  home_team_id : String
  away_team_id : String
  home_score : Option Int
  away_score : Option Int
  result_for_user_team : Option String
deriving Repr, DecidableEq

/-- `g.home_score == null && g.away_score == null` (loose equality with
null: true for null and undefined, i.e. `none`). -/
def gameUnset (g : ScheduleGame) : Bool :=
  g.home_score = none ∧ g.away_score = none

/-- `appState.cachedViews.schedule`: `{ teamId, games, currentIndex }`.
`currentIndex` is a JS number; `generateSeasonSchedule` can set it to
`games.length - 1`, which is `-1` for an empty list, so it is an `Int`. -/
structure ScheduleState where
  teamId : Option String
  games : List ScheduleGame
  currentIndex : Int
deriving Repr, DecidableEq

/-- An element of `appState.cachedViews.scores.games`.  Entries pushed by
the league advance and the user game carry names/status/etc.; entries
seeded straight from the schedule leave them undefined (`none`). -/
structure ScoreEntry where
  game_id : String
  date : Int
  home_team_id : String
  away_team_id : String
  home_team_name : Option String
  away_team_name : Option String
  home_score : Option Int
  away_score : Option Int
  status : Option String
  is_overtime : Option Bool
  top_performers : Option (List String)
deriving Repr, DecidableEq

/-- `appState.cachedViews.scores`. -/
structure ScoresView where
  latest_date : Option Int
  games : List ScoreEntry
deriving Repr, DecidableEq

/-- One item of `appState.cachedViews.news`. -/
structure NewsItem where
  date : Int
  title : String
  summary : String
  related_team_ids : List String
deriving Repr, DecidableEq

/-- `appState.cachedViews.stats`; the leaders payload is opaque to the
engine, modelled as a string blob. -/
structure StatsView where
  leaders : Option String
  lastLoaded : Option String
deriving Repr, DecidableEq

/-- `appState.cachedViews.standings`; rows are opaque to the engine. -/
structure StandingsView where
  east : List String
  west : List String
  lastLoaded : Option String
deriving Repr, DecidableEq

/-- `appState.cachedViews.teams`. -/
structure TeamsView where
  list : List String
  detailById : List (String × String)
  lastLoaded : Option String
deriving Repr, DecidableEq

/-- `appState.cachedViews.weeklyNews`. -/
structure WeeklyNewsView where
  items : List String
  lastLoaded : Option String
deriving Repr, DecidableEq

/-- A per-team tactics record, shape of `getDefaultTactics()`. -/
structure Tactics where
  pace : Int
  offenseScheme : String
  offenseSecondaryScheme : String
  offensePrimaryWeight : Int
  offenseSecondaryWeight : Int
  defenseScheme : String
  defenseSecondaryScheme : String
  defensePrimaryWeight : Int
  defenseSecondaryWeight : Int
  rotationSize : Int
  starters : List String
  bench : List String
  minutes : List (String × Int)
deriving Repr, DecidableEq

/-- `getDefaultTactics()` from the ui state module. -/
def getDefaultTactics : Tactics :=
  { pace := 0
    offenseScheme := "pace_space"
    offenseSecondaryScheme := "pace_space"
    offensePrimaryWeight := 5
    offenseSecondaryWeight := 5
    defenseScheme := "drop_coverage"
    defenseSecondaryScheme := "drop_coverage"
    defensePrimaryWeight := 5
    defenseSecondaryWeight := 5
    rotationSize := 9
    starters := []
    bench := []
    minutes := [] }

/-- The global `appState` object (fields the engine reads or writes). -/
structure AppState where
  apiKey : Option String
  selectedTeam : Option Team
  progressTurns : Int
  currentDate : Option Int
  last_progress_turn_id : Option String
  scores : ScoresView
  schedule : ScheduleState
  news : List NewsItem
  stats : StatsView
  standings : StandingsView
  teams : TeamsView
  weeklyNews : WeeklyNewsView
  rosters : List (String × String)
  chatHistory : List String
  firstMessageShownTeams : List String
  tacticsByTeam : List (String × Tactics)
  postseason : Option String
  seasonReportReady : Bool
  seasonReportText : Option String
deriving Repr, DecidableEq

/-- The initial `appState` literal of the ui state module. -/
def initialAppState : AppState :=
  { apiKey := none
    selectedTeam := none
    progressTurns := 0
    currentDate := none
    last_progress_turn_id := none
    scores := { latest_date := none, games := [] }
    schedule := { teamId := none, games := [], currentIndex := 0 }
    news := []
    stats := { leaders := none, lastLoaded := none }
    standings := { east := [], west := [], lastLoaded := none }
    teams := { list := [], detailById := [], lastLoaded := none }
    weeklyNews := { items := [], lastLoaded := none }
    rosters := []
    chatHistory := []
    firstMessageShownTeams := []
    tacticsByTeam := []
    postseason := none
    seasonReportReady := false
    seasonReportText := none }

/-- JS truthiness of an optional string field (empty string is falsy). -/
def strTruthy : Option String → Bool
  | none => false
  | some s => s ≠ ""

/-- JS `a || b` on an optional string. -/
def jsOrStr (v : Option String) (fallback : String) : String :=
  match v with
  | some s => if s = "" then fallback else s
  | none => fallback

/-- Association-list lookup, modelling JS object property access. -/
def alistLookup {α : Type} (m : List (String × α)) (k : String) : Option α :=
  (m.find? (fun p => p.1 = k)).map (·.2)

/-- `TEAMS.find(t => t.id === tid) || { id: tid, name: tid }`. -/
def lookupTeam (tid : String) : Team :=
  (TEAMS.find? (fun t => t.id = tid)).getD { id := tid, name := tid }

/-- `games[i]` for a JS numeric index (negative or out of range gives
undefined, i.e. `none`). -/
def getAtInt (games : List ScheduleGame) (i : Int) : Option ScheduleGame :=
  if i < 0 then none else games[i.toNat]?

/-! ### Game_sims.js -/

/-- `getNextScheduledGame` (Game_sims.js 12-24): scan for the first entry
with both scores null; when found, set `currentIndex` to it and return
the entry; otherwise return null (cursor untouched). -/
def getNextScheduledGame (sch : ScheduleState) : Option ScheduleGame × ScheduleState :=
  if sch.games.isEmpty then (none, sch)
  else
    match sch.games.findIdx? gameUnset with
    | some i => (sch.games[i]?, { sch with currentIndex := (i : Int) })
    | none => (none, sch)

/-- `g.home_team_id === teamId || g.away_team_id === teamId` where
`teamId` is `schedule.teamId` (possibly null). -/
def involvesTeam (tid : Option String) (g : ScheduleGame) : Bool :=
  tid = some g.home_team_id ∨ tid = some g.away_team_id

/-- Milliseconds per day, the divisor `1000 * 60 * 60 * 24`. -/
def dayMs : Int := 86400000

/-- `computeRestDaysForUserTeam` (Game_sims.js 27-62). -/
def computeRestDaysForUserTeam (sch : ScheduleState) : Int :=
  if sch.games.isEmpty then 0
  else
    -- reverse scan of indices below currentIndex for the user's last game
    let lastGameDate : Option Int :=
      ((sch.games.take sch.currentIndex.toNat).reverse.find? (involvesTeam sch.teamId)).map (·.date)
    match lastGameDate with
    | none => 3  -- first game of the season: fixed assumed rest
    | some d1 =>
      match getAtInt sch.games sch.currentIndex with
      | none => 0
      | some currentGame =>
        let diffDays := Int.fdiv (currentGame.date - d1) dayMs
        -- Math.max(0, diffDays - 1)
        if diffDays - 1 < 0 then 0 else diffDays - 1

/-- `calcFatigueFactor` (Game_sims.js 65-71). -/
def calcFatigueFactor (restDays : Int) : ℚ :=
  if restDays ≤ 0 then 0.92
  else if restDays = 1 then 0.97
  else if restDays = 2 then 1.0
  else if restDays = 3 then 1.03
  else 1.05

/-- `getOrCreateTacticsForTeam` (ui state module): returns null for a
falsy team id; otherwise returns the stored record, creating a default
one first when absent. -/
def getOrCreateTacticsForTeam (st : AppState) (teamId : String) :
    Option Tactics × AppState :=
  if teamId = "" then (none, st)
  else
    match alistLookup st.tacticsByTeam teamId with
    | some t => (some t, st)
    | none =>
      (some getDefaultTactics,
       { st with tacticsByTeam := st.tacticsByTeam ++ [(teamId, getDefaultTactics)] })

/-- The user-side tactics payload sent to the simulator. -/
structure UserTacticsPayload where
  pace : Int
  offense_scheme : String
  defense_scheme : String
  scheme_weight_sharpness : ℚ
  scheme_outcome_strength : ℚ
  def_scheme_weight_sharpness : ℚ
  def_scheme_outcome_strength : ℚ
  rotation_size : Int
  starters : List String
  bench : List String
  minutes : List (String × Int)
deriving Repr, DecidableEq

/-- A tactics payload: full record for the user's team, the bare
`{ pace: 0 }` object for any other team.  `jsError` marks the unreachable
null-dereference the source would hit for a falsy user team id. -/
inductive TacticsPayload where
  | forUser (p : UserTacticsPayload)
  | forOpponent
  | jsError
deriving Repr, DecidableEq

/-- `normalizeWeight` inside `buildTacticsForTeam`: `max(0.2, value / 5)`
(stored weights are numbers; the null/non-finite fallbacks do not arise
for `Int`-valued weights). -/
def normalizeWeight (value : Int) : ℚ :=
  -- Math.max(0.2, value / 5)
  if (value : ℚ) / 5 < 0.2 then 0.2 else (value : ℚ) / 5

/-- `buildTacticsForTeam(teamId, fatigueFactor)` (Game_sims.js 74-106).
Note: the source accepts `fatigueFactor` but never reads it. -/
def buildTacticsForTeam (st : AppState) (teamId : String) (fatigueFactor : ℚ) :
    TacticsPayload × AppState :=
  let _ := fatigueFactor
  let isUserTeam : Bool := match st.selectedTeam with
    | some u => u.id = teamId
    | none => false
  if isUserTeam then
    match getOrCreateTacticsForTeam st teamId with
    | (some tactics, st') =>
      (.forUser
        { pace := tactics.pace
          offense_scheme :=
            if tactics.offenseScheme = "" then "Spread_HeavyPnR" else tactics.offenseScheme
          defense_scheme :=
            if tactics.defenseScheme = "" then "Drop" else tactics.defenseScheme
          scheme_weight_sharpness := normalizeWeight tactics.offensePrimaryWeight
          scheme_outcome_strength := normalizeWeight tactics.offenseSecondaryWeight
          def_scheme_weight_sharpness := normalizeWeight tactics.defensePrimaryWeight
          def_scheme_outcome_strength := normalizeWeight tactics.defenseSecondaryWeight
          rotation_size := if tactics.rotationSize = 0 then 9 else tactics.rotationSize
          starters := tactics.starters
          bench := tactics.bench
          minutes := tactics.minutes }, st')
    | (none, st') => (.jsError, st')
  else
    (.forOpponent, st)

/-- Stable descending insertion by date: where the element goes under the
stable JS sort with comparator `(a, b) => (a.date < b.date ? 1 : -1)`. -/
def insertByDateDesc (x : ScheduleGame) : List ScheduleGame → List ScheduleGame
  | [] => [x]
  | y :: ys => if y.date < x.date then x :: y :: ys else y :: insertByDateDesc x ys

/-- `finished.sort((a, b) => (a.date < b.date ? 1 : -1))`: stable sort by
date descending. -/
def sortByDateDesc (l : List ScheduleGame) : List ScheduleGame :=
  l.foldr insertByDateDesc []

/-- A raw schedule entry stored directly into the scores view by
`generateSeasonSchedule` (presentational fields are undefined). -/
def schedGameToScoreEntry (g : ScheduleGame) : ScoreEntry :=
  { game_id := g.game_id
    date := g.date
    home_team_id := g.home_team_id
    away_team_id := g.away_team_id
    home_team_name := none
    away_team_name := none
    home_score := g.home_score
    away_score := g.away_score
    status := none
    is_overtime := none
    top_performers := none }

/-- `generateSeasonSchedule(teamId)` (Game_sims.js 109-168), with the
`/api/team-schedule` response as an oracle (`none` = non-ok or thrown).
Returns the new state and the number of fetches performed. -/
def generateSeasonSchedule (fetch : Option (List ScheduleGame)) (teamId : String)
    (st : AppState) : AppState × Nat :=
  -- already-loaded guard: same team id and a non-empty games list
  if st.schedule.teamId = some teamId ∧ ¬ st.schedule.games.isEmpty then (st, 0)
  else
    let st1 := { st with schedule := { teamId := some teamId, games := [], currentIndex := 0 } }
    match fetch with
    | none => (st1, 1)  -- non-ok response or exception: alert and return
    | some games =>
      let idx := games.findIdx? gameUnset
      let ci : Int := match idx with
        | none => (games.length : Int) - 1
        | some i => (i : Int)
      let finished := sortByDateDesc
        (games.filter (fun g => ¬ (g.home_score = none) ∧ ¬ (g.away_score = none)))
      let st2 :=
        { st1 with
          schedule := { teamId := some teamId, games := games, currentIndex := ci }
          scores :=
            { latest_date := finished.head?.map (·.date)
              games := (finished.take 50).map schedGameToScoreEntry } }
      let st3 := match games.head? with
        | some g0 => { st2 with currentDate := some g0.date }
        | none => st2
      (st3, 1)

/-- A game record in the `/api/advance-league` response. -/
structure LeagueGame where
  game_id : String
  date : Int
  home_team_id : String
  away_team_id : String
  home_score : Int
  away_score : Int
  status : Option String
  is_overtime : Option Bool
deriving Repr, DecidableEq

/-- The score entry unshifted for one league-advance game
(Game_sims.js 321-341). -/
def leagueGameToScoreEntry (g : LeagueGame) : ScoreEntry :=
  { game_id := g.game_id
    date := g.date
    home_team_id := g.home_team_id
    away_team_id := g.away_team_id
    home_team_name := some (lookupTeam g.home_team_id).name
    away_team_name := some (lookupTeam g.away_team_id).name
    home_score := some g.home_score
    away_score := some g.away_score
    status := some (jsOrStr g.status "final")
    is_overtime := some (g.is_overtime.getD false)
    top_performers := some [] }

/-- The `/api/simulate-game` success payload. -/
structure SimResponse where
  final_score : List (String × Int)
  commentary : Option String
deriving Repr, DecidableEq

/-- `finalScore[teamId] ?? 0`: a team id missing from the final-score map
counts as 0. -/
def scoreFor (finalScore : List (String × Int)) (tid : String) : Int :=
  (alistLookup finalScore tid).getD 0

/-- The server interactions of one `simulateGameProgress` call. -/
structure Oracles where
  scheduleFetch : Option (List ScheduleGame)
  leagueFetch : Option (List LeagueGame)
  simFetch : Option SimResponse
  reportFetch : Option String
deriving Repr, DecidableEq

/-- The success value returned by `simulateGameProgress`. -/
structure AppliedResult where
  game_id : String
  game_date : Int
  home_team_id : String
  away_team_id : String
  home_team_name : String
  away_team_name : String
  home_score : Int
  away_score : Int
  result_for_user_team : Option String
  log_entry : ScoreEntry
deriving Repr, DecidableEq

/-- Return value of `simulateGameProgress`: the structured
`{ success: false, reason: "no-more-regular-season" }`, the bare `false`
of a failed match-engine call, or the success record. -/
inductive SimOutcome where
  | noMoreGames
  | errored
  | applied (r : AppliedResult)
deriving Repr, DecidableEq

/-- League-advance merge step of `simulateGameProgress`
(Game_sims.js 303-350): best-effort; on success each simulated game is
unshifted onto the scores view (so they end up reversed in front) and
the latest-date marker is refreshed from the first simulated game. -/
def applyLeagueAdvance (leagueFetch : Option (List LeagueGame)) (st : AppState) : AppState :=
  match leagueFetch with
  | none => st  -- non-ok or exception: warn and continue
  | some simulated =>
    let newGames := (simulated.map leagueGameToScoreEntry).reverse ++ st.scores.games
    match simulated.head? with
    | some g0 => { st with scores := { latest_date := some g0.date, games := newGames } }
    | none => { st with scores := { st.scores with games := newGames } }

/-- Result-application fragment of `simulateGameProgress`
(Game_sims.js 411-416): write the scores into the schedule entry at
`currentIndex` and derive `result_for_user_team` by strict comparison.
The cursor (`currentIndex`) is not touched. -/
def applyResult (sch : ScheduleState) (isUserHome : Bool) (homeScore awayScore : Int) :
    ScheduleState :=
  match getAtInt sch.games sch.currentIndex with
  | none => sch
  | some g =>
    let myScore := if isUserHome then homeScore else awayScore
    let oppScore := if isUserHome then awayScore else homeScore
    { sch with
      games := sch.games.set sch.currentIndex.toNat
        { g with
          home_score := some homeScore
          away_score := some awayScore
          result_for_user_team := some (if oppScore < myScore then "W" else "L") } }

/-- Per-side fatigue assignment of `simulateGameProgress`
(Game_sims.js 356-358): the user's side gets the computed factor, the
other side gets 1.0. -/
def sideFatigues (isUserHome : Bool) (fatigueFactor : ℚ) : ℚ × ℚ :=
  (if isUserHome then fatigueFactor else 1.0, if isUserHome then 1.0 else fatigueFactor)

/-- Success branch of `simulateGameProgress` (Game_sims.js 383-478):
extract scores, bump the turn counter, prepend the score entry, apply the
result into the schedule, synthesize a news item, move the in-game date,
and null the four cache markers. -/
def applySimSuccess (data : SimResponse) (userTeam homeTeam awayTeam : Team)
    (nextGame : ScheduleGame) (isUserHome : Bool) (st : AppState) :
    AppliedResult × AppState :=
  let homeScore := scoreFor data.final_score homeTeam.id
  let awayScore := scoreFor data.final_score awayTeam.id
  let turns := st.progressTurns + 1
  let turnId := "turn_" ++ toString turns
  let gameDate := nextGame.date
  let userGameEntry : ScoreEntry :=
    { game_id := nextGame.game_id
      date := gameDate
      home_team_id := homeTeam.id
      away_team_id := awayTeam.id
      home_team_name := some homeTeam.name
      away_team_name := some awayTeam.name
      home_score := some homeScore
      away_score := some awayScore
      status := some "final"
      is_overtime := some false
      top_performers := some [] }
  let myScore := if isUserHome then homeScore else awayScore
  let oppScore := if isUserHome then awayScore else homeScore
  let oppTeam := if isUserHome then awayTeam else homeTeam
  -- the source returns `nextGame.result_for_user_team` after assigning
  -- `myScore > oppScore ? "W" : "L"` through the same object reference
  let resultStr := if oppScore < myScore then "W" else "L"
  let newsItem : NewsItem :=
    { date := gameDate
      title := userTeam.name ++ "가 " ++ oppTeam.name ++ "을(를) " ++ toString myScore
          ++ "-" ++ toString oppScore ++ "로 "
          ++ (if oppScore < myScore then "승리" else "패배")
      summary := "파이썬 매치 엔진 결과를 기반으로 생성된 더미 뉴스입니다."
      related_team_ids := [userTeam.id, oppTeam.id] }
  let sch := applyResult st.schedule isUserHome homeScore awayScore
  let st' :=
    { st with
      progressTurns := turns
      last_progress_turn_id := some turnId
      scores := { latest_date := some gameDate, games := userGameEntry :: st.scores.games }
      schedule := sch
      news := newsItem :: st.news
      currentDate := some gameDate
      stats := { st.stats with lastLoaded := none }
      standings := { st.standings with lastLoaded := none }
      weeklyNews := { st.weeklyNews with lastLoaded := none }
      teams := { st.teams with lastLoaded := none } }
  ({ game_id := nextGame.game_id
     game_date := gameDate
     home_team_id := homeTeam.id
     away_team_id := awayTeam.id
     home_team_name := homeTeam.name
     away_team_name := awayTeam.name
     home_score := homeScore
     away_score := awayScore
     result_for_user_team := some resultStr
     log_entry := userGameEntry }, st')

/-- Season-exhausted branch of `simulateGameProgress`
(Game_sims.js 241-292): alerts, then a best-effort season-report request
whose success flips `seasonReportReady` via `handleSeasonReportGenerated`. -/
def applySeasonReport (reportFetch : Option String) (st : AppState) : AppState :=
  if strTruthy st.apiKey ∧ st.selectedTeam.isSome then
    match reportFetch with
    | some report =>
      if report ≠ "" then
        { st with seasonReportReady := true, seasonReportText := some report }
      else st
    | none => st
  else st

/-- Opening steps of `simulateGameProgress` (Game_sims.js 229-238):
default the schedule's team id to the user's team and load the schedule
if none is present. -/
def ensureScheduleLoaded (o : Oracles) (s0 : AppState) : AppState :=
  let userTeam := s0.selectedTeam.getD (lookupTeam "ATL")  -- TEAMS[0]
  let s1 :=
    if s0.schedule.teamId = none then
      { s0 with schedule := { s0.schedule with teamId := some userTeam.id } }
    else s0
  if s1.schedule.games.isEmpty then
    (generateSeasonSchedule o.scheduleFetch (s1.schedule.teamId.getD "") s1).1
  else s1

/-- Steps between finding the next game and the simulate-game call
(Game_sims.js 303-363): best-effort league advance, fatigue computation,
and the two tactics-builder invocations (whose payloads form the
simulate-game request; their only state effect is possibly creating the
user team's default tactics record). -/
def preGameState (o : Oracles) (userTeam : Team) (nextGame : ScheduleGame)
    (s3 : AppState) : AppState :=
  let s4 := applyLeagueAdvance o.leagueFetch s3
  let restDays := computeRestDaysForUserTeam s4.schedule
  let fatigueFactor := calcFatigueFactor restDays
  let homeTeam := lookupTeam nextGame.home_team_id
  let awayTeam := lookupTeam nextGame.away_team_id
  let isUserHome := userTeam.id = homeTeam.id
  let fatigues := sideFatigues isUserHome fatigueFactor
  let s5 := (buildTacticsForTeam s4 homeTeam.id fatigues.1).2
  (buildTacticsForTeam s5 awayTeam.id fatigues.2).2

/-- `simulateGameProgress()` (Game_sims.js 228-484). -/
def simulateGameProgress (o : Oracles) (s0 : AppState) : SimOutcome × AppState :=
  let userTeam := s0.selectedTeam.getD (lookupTeam "ATL")  -- TEAMS[0]
  let s2 := ensureScheduleLoaded o s0
  match getNextScheduledGame s2.schedule with
  | (none, _) => (.noMoreGames, applySeasonReport o.reportFetch s2)
  | (some nextGame, schNext) =>
    let s3 := { s2 with schedule := schNext }
    let s6 := preGameState o userTeam nextGame s3
    let homeTeam := lookupTeam nextGame.home_team_id
    let awayTeam := lookupTeam nextGame.away_team_id
    let isUserHome := userTeam.id = homeTeam.id
    match o.simFetch with
    | none => (.errored, s6)  -- non-ok response or exception
    | some data =>
      (.applied (applySimSuccess data userTeam homeTeam awayTeam nextGame isUserHome s6).1,
       (applySimSuccess data userTeam homeTeam awayTeam nextGame isUserHome s6).2)

/-! ### ui.js — view-cache accessors -/

/-- The `/api/standings` success payload (rows opaque to the engine). -/
structure StandingsData where
  east : List String
  west : List String
deriving Repr, DecidableEq

/-- `loadStandingsIfNeeded(force)` (ui.js 979-997): fetch only when the
marker is falsy or a refresh is forced.  `now` is the
`new Date().toISOString()` value.  Returns state and fetch count. -/
def loadStandingsIfNeeded (fetch : Option StandingsData) (now : String) (force : Bool)
    (st : AppState) : AppState × Nat :=
  if ¬ force ∧ strTruthy st.standings.lastLoaded then (st, 0)
  else
    match fetch with
    | none => (st, 1)
    | some d =>
      ({ st with standings := { east := d.east, west := d.west, lastLoaded := some now } }, 1)

/-- The `/api/stats/leaders` success payload. -/
structure StatsData where
  leaders : Option String
  updated_at : Option String
deriving Repr, DecidableEq

/-- `loadStatsLeadersIfNeeded(force)` (ui.js 1036-1053). -/
def loadStatsLeadersIfNeeded (fetch : Option StatsData) (now : String) (force : Bool)
    (st : AppState) : AppState × Nat :=
  if ¬ force ∧ strTruthy st.stats.lastLoaded then (st, 0)
  else
    match fetch with
    | none => (st, 1)
    | some d =>
      ({ st with stats :=
          { leaders := d.leaders
            lastLoaded := some (jsOrStr d.updated_at now) } }, 1)

/-- `loadTeamsListIfNeeded(force)` (ui.js 1098-1115).  Note: the guard is
`cv.list.length > 0`, not the `lastLoaded` marker. -/
def loadTeamsListIfNeeded (fetch : Option (List String)) (now : String) (force : Bool)
    (st : AppState) : AppState × Nat :=
  if ¬ force ∧ ¬ st.teams.list.isEmpty then (st, 0)
  else
    match fetch with
    | none => (st, 1)
    | some rows =>
      ({ st with teams := { st.teams with list := rows, lastLoaded := some now } }, 1)

/-- The `/api/news/week` success payload. -/
structure WeeklyData where
  items : List String
  current_date : Option String
deriving Repr, DecidableEq

/-- `loadWeeklyNewsIfNeeded(force)` (ui.js 1247-1269): requires an API
key, then the marker gate. -/
def loadWeeklyNewsIfNeeded (fetch : Option WeeklyData) (now : String) (force : Bool)
    (st : AppState) : AppState × Nat :=
  if ¬ strTruthy st.apiKey then (st, 0)
  else if ¬ force ∧ strTruthy st.weeklyNews.lastLoaded then (st, 0)
  else
    match fetch with
    | none => (st, 1)
    | some d =>
      ({ st with weeklyNews :=
          { items := d.items
            lastLoaded := some (jsOrStr d.current_date now) } }, 1)

/-! ### ui.js / llm.js — team selection -/

/-- `loadRosterForTeam(teamId)` (llm.js 263-279): skip for a falsy id or
an already-present roster; otherwise fetch and store on success. -/
def loadRosterForTeam (fetch : Option String) (teamId : String) (st : AppState) : AppState :=
  if teamId = "" then st
  else if (alistLookup st.rosters teamId).isSome then st
  else
    match fetch with
    | none => st
    | some data => { st with rosters := st.rosters ++ [(teamId, data)] }

/-- `selectTeam(teamId)` (ui.js 281-323): for a known team, set it as
selected, reset progress and the whole `cachedViews` object (schedule
re-keyed to the new team, everything else emptied), clear rosters, chat
history and postseason state, then ensure a tactics record exists for the
new team and request its roster summary.  `appState.tacticsByTeam` is not
reset. -/
def selectTeam (rosterFetch : Option String) (teamId : String) (st : AppState) : AppState :=
  match TEAMS.find? (fun t => t.id = teamId) with
  | none => st
  | some team =>
    let st1 :=
      { st with
        selectedTeam := some team
        progressTurns := 0
        last_progress_turn_id := none
        scores := { latest_date := none, games := [] }
        schedule := { teamId := some team.id, games := [], currentIndex := 0 }
        news := []
        stats := { leaders := none, lastLoaded := none }
        standings := { east := [], west := [], lastLoaded := none }
        teams := { list := [], detailById := [], lastLoaded := none }
        weeklyNews := { items := [], lastLoaded := none }
        rosters := []
        chatHistory := []
        firstMessageShownTeams := st.firstMessageShownTeams
        postseason := none
        seasonReportReady := false }
    let st2 := (getOrCreateTacticsForTeam st1 team.id).2
    loadRosterForTeam rosterFetch team.id st2

/-! ### ui.js — play-in next matchup -/

/-- A play-in matchup: `home`/`away` are the optional participant team
ids (`matchup.home?.team_id`), `result` the optional winner id. -/
structure PlayInMatchup where
  home : Option String
  away : Option String
  result : Option String
deriving Repr, DecidableEq

/-- One conference of the play-in state: the three matchups keyed
`seven_vs_eight`, `nine_vs_ten`, `final` (each possibly absent). -/
structure PlayInConfState where
  seven_vs_eight : Option PlayInMatchup
  nine_vs_ten : Option PlayInMatchup
  final : Option PlayInMatchup
deriving Repr, DecidableEq

/-- The fixed iteration order of `nextPlayInMatchup`. -/
def playInOrder (c : PlayInConfState) : List (Option PlayInMatchup) :=
  [c.seven_vs_eight, c.nine_vs_ten, c.final]

/-- One iteration of the `nextPlayInMatchup` loop: skip a missing or
already-resolved matchup, and one not involving the user's team. -/
def playInStep (myId : Option String) (m : Option PlayInMatchup) : Option PlayInMatchup :=
  match m with
  | none => none
  | some mu =>
    if mu.result.isSome then none
    else
      match myId with
      | none => none
      | some i => if mu.home = some i ∨ mu.away = some i then some mu else none

/-- `nextPlayInMatchup(confState)` (ui.js 1393-1407), with the user team
id (`appState.selectedTeam?.id`) passed explicitly. -/
def nextPlayInMatchup (myId : Option String) (confState : Option PlayInConfState) :
    Option PlayInMatchup :=
  match confState with
  | none => none
  | some c => (playInOrder c).findSome? (playInStep myId)

/-! ### Helper lemmas -/

/-- `i` is the minimal index of a schedule entry with unset scores. -/
def isMinUnsetIdx (games : List ScheduleGame) (i : Nat) : Prop :=
  i < games.length ∧ (∀ g, games[i]? = some g → gameUnset g)
    ∧ ∀ j g, j < i → games[j]? = some g → ¬ gameUnset g

theorem findIdx?_some_minUnset {games : List ScheduleGame} {i : Nat}
    (h : games.findIdx? gameUnset = some i) : isMinUnsetIdx games i := by
  rw [List.findIdx?_eq_some_iff_findIdx_eq] at h
  obtain ⟨hlen, hfi⟩ := h
  rw [List.findIdx_eq hlen] at hfi
  refine ⟨hlen, ?_, ?_⟩
  · intro g hg
    rw [List.getElem?_eq_getElem hlen] at hg
    cases hg
    exact hfi.1
  · intro j g hj hg
    have hjlen : j < games.length := lt_trans hj hlen
    rw [List.getElem?_eq_getElem hjlen] at hg
    cases hg
    simp [gameUnset] at hfi ⊢
    have := hfi.2 j hj
    simp [gameUnset] at this
    exact this

theorem findIdx?_none_allSet {games : List ScheduleGame}
    (h : games.findIdx? gameUnset = none) : ∀ g ∈ games, gameUnset g = false := by
  rw [List.findIdx?_eq_none_iff] at h
  exact h

/-- `buildTacticsForTeam` changes at most the `tacticsByTeam` map: every
other component of the state is returned unchanged. -/
theorem buildTacticsForTeam_fields (st : AppState) (tid : String) (f : ℚ) :
    (buildTacticsForTeam st tid f).2.schedule = st.schedule
    ∧ (buildTacticsForTeam st tid f).2.scores = st.scores
    ∧ (buildTacticsForTeam st tid f).2.news = st.news
    ∧ (buildTacticsForTeam st tid f).2.progressTurns = st.progressTurns
    ∧ (buildTacticsForTeam st tid f).2.currentDate = st.currentDate
    ∧ (buildTacticsForTeam st tid f).2.last_progress_turn_id = st.last_progress_turn_id
    ∧ (buildTacticsForTeam st tid f).2.stats = st.stats
    ∧ (buildTacticsForTeam st tid f).2.standings = st.standings
    ∧ (buildTacticsForTeam st tid f).2.teams = st.teams
    ∧ (buildTacticsForTeam st tid f).2.weeklyNews = st.weeklyNews
    ∧ (buildTacticsForTeam st tid f).2.apiKey = st.apiKey
    ∧ (buildTacticsForTeam st tid f).2.selectedTeam = st.selectedTeam := by
  unfold buildTacticsForTeam getOrCreateTacticsForTeam
  rcases hsel : st.selectedTeam with _ | u <;> simp [hsel]
  by_cases hid : u.id = tid
  · simp only [hid, if_pos]
    by_cases htid : tid = ""
    · simp [htid, hsel]
    · simp only [htid, if_neg, ite_false]
      cases hl : alistLookup st.tacticsByTeam tid <;> simp [hl, hsel]
  · simp [hid, hsel]

/-! ### Concrete data shared by counterexamples and witnesses -/

/-- A decided schedule entry (scores set). -/
def cexScoredA : ScheduleGame :=
  { game_id := "g1", date := 0, home_team_id := "ATL", away_team_id := "BOS",
    home_score := some 100, away_score := some 90, result_for_user_team := some "W" }

/-- A second decided schedule entry. -/
def cexScoredB : ScheduleGame :=
  { game_id := "g2", date := 86400000, home_team_id := "ATL", away_team_id := "BOS",
    home_score := some 95, away_score := some 99, result_for_user_team := some "L" }

/-- An undecided entry on day 0. -/
def cexUnsetA : ScheduleGame :=
  { game_id := "u1", date := 0, home_team_id := "ATL", away_team_id := "BOS",
    home_score := none, away_score := none, result_for_user_team := none }

/-- An undecided entry one day later. -/
def cexUnsetB : ScheduleGame :=
  { game_id := "u2", date := 86400000, home_team_id := "ATL", away_team_id := "CHI",
    home_score := none, away_score := none, result_for_user_team := none }

/-! ### C1 — cursor invariant after `generateSeasonSchedule` -/

/-- C1 counterexample: loading a schedule whose two entries both already
have scores leaves `currentIndex = 1` — the ordinary last index, pointing
at an entry whose scores are set — although no entry has unset scores, so
the cursor is neither the minimal unset index nor a distinguished
"exhausted" value. -/
theorem cursor_no_exhausted_sentinel :
    (∀ g ∈ (generateSeasonSchedule (some [cexScoredA, cexScoredB]) "ATL"
        initialAppState).1.schedule.games, ¬ gameUnset g)
    ∧ (generateSeasonSchedule (some [cexScoredA, cexScoredB]) "ATL"
        initialAppState).1.schedule.currentIndex = 1
    ∧ getAtInt (generateSeasonSchedule (some [cexScoredA, cexScoredB]) "ATL"
        initialAppState).1.schedule.games 1 = some cexScoredB
    ∧ ¬ gameUnset cexScoredB := by decide

/-- C1 (amended): after `generateSeasonSchedule` fetches a schedule, the
cursor is the minimal index of an entry with unset scores when one
exists; when every entry already has scores set it is `games.length - 1`
(the last ordinary index), not a distinguished "exhausted" value —
exhaustion is signalled separately by `getNextScheduledGame` returning
null. -/
theorem generateSeasonSchedule_cursor (st : AppState) (teamId : String)
    (games : List ScheduleGame)
    (hguard : ¬ (st.schedule.teamId = some teamId ∧ ¬ st.schedule.games.isEmpty)) :
    (∀ i, games.findIdx? gameUnset = some i →
      (generateSeasonSchedule (some games) teamId st).1.schedule.currentIndex = (i : Int)
      ∧ isMinUnsetIdx games i)
    ∧ (games.findIdx? gameUnset = none →
      (generateSeasonSchedule (some games) teamId st).1.schedule.currentIndex
        = (games.length : Int) - 1
      ∧ ∀ g ∈ games, ¬ gameUnset g)
    ∧ (generateSeasonSchedule (some games) teamId st).1.schedule.games = games := by
  unfold generateSeasonSchedule
  rw [if_neg hguard]
  refine ⟨?_, ?_, ?_⟩
  · intro i hi
    rcases hg0 : games.head? with _ | g0 <;>
      simp [hi, hg0, findIdx?_some_minUnset hi]
  · intro hnone
    rcases hg0 : games.head? with _ | g0 <;>
      simp [hnone, hg0, findIdx?_none_allSet hnone] <;>
      exact findIdx?_none_allSet hnone
  · rcases hg0 : games.head? with _ | g0 <;>
      cases hi : games.findIdx? gameUnset <;> simp [hi, hg0]

/-- Witness for C1 (amended): a schedule with a scored first entry and an
unset second entry gets cursor 1; a fully scored schedule gets cursor
`length - 1 = 1`. -/
theorem generateSeasonSchedule_cursor_witness :
    (generateSeasonSchedule (some [cexScoredA, cexUnsetB]) "ATL"
      initialAppState).1.schedule.currentIndex = 1
    ∧ isMinUnsetIdx [cexScoredA, cexUnsetB] 1 := by
  have h := generateSeasonSchedule_cursor initialAppState "ATL" [cexScoredA, cexUnsetB]
    (by decide)
  have h1 := h.1 1 (by decide)
  exact h1

/-! ### C2 — cursor and result after applying a game result -/

/-- C2 counterexample: with two unset entries and the cursor at 0,
applying the result to the entry at the cursor leaves the cursor at 0 —
it still points at the just-decided entry, not at the next entry with
unset scores (index 1). -/
theorem applyResult_cursor_not_advanced :
    (applyResult { teamId := some "ATL", games := [cexUnsetA, cexUnsetB], currentIndex := 0 }
        true 100 90).currentIndex = 0
    ∧ ((applyResult
        { teamId := some "ATL", games := [cexUnsetA, cexUnsetB], currentIndex := 0 }
        true 100 90).games[1]?).map gameUnset = some true
    ∧ ((applyResult
        { teamId := some "ATL", games := [cexUnsetA, cexUnsetB], currentIndex := 0 }
        true 100 90).games[0]?).map gameUnset = some false := by decide

/-- C2 (amended): applying the result to the entry at the cursor sets
that entry's scores and sets `result_for_user_team` to `W` iff the user's
score is strictly greater, but leaves the cursor unchanged; the cursor
advances lazily — the next `getNextScheduledGame` call repositions it at
the minimal remaining index with unset scores, and returns null with the
cursor untouched when none remains. -/
theorem applyResult_behavior (sch : ScheduleState) (isUserHome : Bool)
    (homeScore awayScore : Int) (g : ScheduleGame) (i : Nat)
    (hci : sch.currentIndex = (i : Int))
    (hg : sch.games[i]? = some g) :
    (applyResult sch isUserHome homeScore awayScore).currentIndex = sch.currentIndex
    ∧ (applyResult sch isUserHome homeScore awayScore).games[i]? = some
        { g with
          home_score := some homeScore
          away_score := some awayScore
          result_for_user_team := some
            (if (if isUserHome then awayScore else homeScore)
                < (if isUserHome then homeScore else awayScore) then "W" else "L") }
    ∧ ((if (if isUserHome then awayScore else homeScore)
          < (if isUserHome then homeScore else awayScore) then "W" else "L") = "W"
        ↔ (if isUserHome then awayScore else homeScore)
          < (if isUserHome then homeScore else awayScore))
    ∧ (∀ j, (applyResult sch isUserHome homeScore awayScore).games.findIdx? gameUnset = some j →
        (getNextScheduledGame (applyResult sch isUserHome homeScore awayScore)).2.currentIndex
          = (j : Int)
        ∧ isMinUnsetIdx (applyResult sch isUserHome homeScore awayScore).games j)
    ∧ ((applyResult sch isUserHome homeScore awayScore).games.findIdx? gameUnset = none →
        getNextScheduledGame (applyResult sch isUserHome homeScore awayScore)
          = (none, applyResult sch isUserHome homeScore awayScore)) := by
  have hlen : i < sch.games.length := by
    rcases List.getElem?_eq_some.mp hg with ⟨h, _⟩
    exact h
  have hget : getAtInt sch.games sch.currentIndex = some g := by
    rw [hci]
    unfold getAtInt
    rw [if_neg (not_lt.mpr (Int.natCast_nonneg i))]
    simpa using hg
  have happly : applyResult sch isUserHome homeScore awayScore =
      { sch with
        games := sch.games.set i
          { g with
            home_score := some homeScore
            away_score := some awayScore
            result_for_user_team := some
              (if (if isUserHome then awayScore else homeScore)
                  < (if isUserHome then homeScore else awayScore) then "W" else "L") } } := by
    unfold applyResult
    rw [hget]
    simp [hci]
  refine ⟨?_, ?_, ?_, ?_, ?_⟩
  · rw [happly]
  · rw [happly]
    simp [List.getElem?_set_self, hlen, List.getElem?_eq_getElem]
  · constructor
    · intro hW
      by_contra hlt
      simp [hlt] at hW
    · intro hlt
      simp [hlt]
  · intro j hj
    have hne : ¬ (applyResult sch isUserHome homeScore awayScore).games.isEmpty := by
      have := (findIdx?_some_minUnset hj).1
      cases hempty : (applyResult sch isUserHome homeScore awayScore).games with
      | nil => rw [hempty] at this; simp at this
      | cons a l => simp [hempty]
    unfold getNextScheduledGame
    rw [if_neg (by simpa using hne), hj]
    exact ⟨rfl, findIdx?_some_minUnset hj⟩
  · intro hnone
    unfold getNextScheduledGame
    by_cases hempty : (applyResult sch isUserHome homeScore awayScore).games.isEmpty
    · rw [if_pos hempty]
    · rw [if_neg hempty, hnone]

/-- Witness for C2 (amended): applying 100-90 at cursor 0 of a two-game
unset schedule keeps the cursor at 0, records a `W`, and the next
`getNextScheduledGame` call advances the cursor to 1. -/
theorem applyResult_behavior_witness :
    (applyResult { teamId := some "ATL", games := [cexUnsetA, cexUnsetB], currentIndex := 0 }
        true 100 90).currentIndex = 0
    ∧ (getNextScheduledGame (applyResult
        { teamId := some "ATL", games := [cexUnsetA, cexUnsetB], currentIndex := 0 }
        true 100 90)).2.currentIndex = 1 := by
  have h := applyResult_behavior
    { teamId := some "ATL", games := [cexUnsetA, cexUnsetB], currentIndex := 0 }
    true 100 90 cexUnsetA 0 (by decide) (by decide)
  refine ⟨by rw [h.1], ?_⟩
  have h4 := h.2.2.2.1 1 (by decide)
  exact h4.1

/-! ### C3 — fatigue factor and the tactics payloads -/

/-- A state with the Hawks selected and no stored tactics yet. -/
def cexTacticsState : AppState :=
  { initialAppState with selectedTeam := some { id := "ATL", name := "Atlanta Hawks" } }

/-- C3 counterexample: the user-side tactics payload is identical for
fatigue factors 0.92 and 1.05 and contains only tactics fields — the
computed fatigue factor is not passed through into it (the
`fatigueFactor` argument of `buildTacticsForTeam` is never read). -/
theorem fatigue_not_in_user_payload :
    buildTacticsForTeam cexTacticsState "ATL" 0.92
      = buildTacticsForTeam cexTacticsState "ATL" 1.05
    ∧ (buildTacticsForTeam cexTacticsState "ATL" 0.92).1 = TacticsPayload.forUser
        { pace := 0
          offense_scheme := "pace_space"
          defense_scheme := "drop_coverage"
          scheme_weight_sharpness := 1
          scheme_outcome_strength := 1
          def_scheme_weight_sharpness := 1
          def_scheme_outcome_strength := 1
          rotation_size := 9
          starters := []
          bench := []
          minutes := [] } := by
  have hw : normalizeWeight 5 = 1 := by unfold normalizeWeight; norm_num
  refine ⟨rfl, ?_⟩
  simp [buildTacticsForTeam, getOrCreateTacticsForTeam, cexTacticsState, initialAppState,
    alistLookup, getDefaultTactics, hw]

/-- C3 (amended): during an advance, the computed fatigue factor is
assigned to the user's side only (the other side gets 1.0) when the
tactics builders are invoked, but `buildTacticsForTeam` ignores its
fatigue argument entirely — the resulting payload is the same for every
factor — and a non-user team's payload is the bare `{ pace: 0 }` object,
so neither side's payload carries fatigue. -/
theorem buildTactics_ignores_fatigue :
    (∀ (st : AppState) (tid : String) (f f' : ℚ),
      buildTacticsForTeam st tid f = buildTacticsForTeam st tid f')
    ∧ (∀ (st : AppState) (tid : String) (f : ℚ),
      (∀ u, st.selectedTeam = some u → u.id ≠ tid) →
      (buildTacticsForTeam st tid f).1 = TacticsPayload.forOpponent)
    ∧ (∀ f : ℚ, sideFatigues true f = (f, 1.0) ∧ sideFatigues false f = (1.0, f)) := by
  refine ⟨?_, ?_, ?_⟩
  · intro st tid f f'
    rfl
  · intro st tid f h
    unfold buildTacticsForTeam
    rcases hsel : st.selectedTeam with _ | u
    · simp [hsel]
    · simp [hsel, h u hsel]
  · intro f
    exact ⟨rfl, rfl⟩

/-- Witness for C3 (amended): with the Hawks selected, the Celtics-side
payload at fatigue 0.92 is the bare opponent payload. -/
theorem buildTactics_ignores_fatigue_witness :
    (buildTacticsForTeam cexTacticsState "BOS" 0.92).1 = TacticsPayload.forOpponent := by
  exact buildTactics_ignores_fatigue.2.1 cexTacticsState "BOS" 0.92
    (by intro u hu hid; rw [show u = { id := "ATL", name := "Atlanta Hawks" } from
      Option.some_injective _ hu.symm] at hid; exact absurd hid (by decide))

/-! ### C7 — rest days and the fatigue factor table -/

/-- A schedule whose decided first game (day 0) and current game are four
calendar days apart. -/
def cexGap4 : ScheduleState :=
  { teamId := some "ATL"
    games := [cexScoredA, { cexUnsetB with date := 4 * 86400000 }]
    currentIndex := 1 }

/-- As `cexGap4` but with a one-calendar-day gap (back-to-back). -/
def cexGap1 : ScheduleState :=
  { teamId := some "ATL"
    games := [cexScoredA, { cexUnsetB with date := 86400000 }]
    currentIndex := 1 }

/-- As `cexGap4` but with a three-calendar-day gap. -/
def cexGap3 : ScheduleState :=
  { teamId := some "ATL"
    games := [cexScoredA, { cexUnsetB with date := 3 * 86400000 }]
    currentIndex := 1 }

/-- C7 counterexample: a 4-calendar-day gap (last game day 0, current
game day 4) yields `rest_days = 3` and factor 1.03, not `rest_days = 2`
and factor 1.00 as the claim states. -/
theorem four_day_gap_not_two_rest_days :
    computeRestDaysForUserTeam cexGap4 = 3
    ∧ calcFatigueFactor (computeRestDaysForUserTeam cexGap4) = 1.03
    ∧ computeRestDaysForUserTeam cexGap4 ≠ 2
    ∧ calcFatigueFactor (computeRestDaysForUserTeam cexGap4) ≠ 1.00 := by
  have h : computeRestDaysForUserTeam cexGap4 = 3 := by decide
  refine ⟨h, ?_, by decide, ?_⟩
  · rw [h]; rfl
  · rw [h]; norm_num [calcFatigueFactor]

/-- C7 (amended): on the team's first scheduled game (no entry before the
cursor involves the team) `computeRestDaysForUserTeam` returns 3
regardless of calendar dates; otherwise it returns
`floor(msBetween / dayMs) - 1` floored at 0; the factor table is
`≤0 → 0.92, 1 → 0.97, 2 → 1.00, 3 → 1.03, ≥4 → 1.05`; a 1-calendar-day
gap yields rest 0 and factor 0.92, a 3-day gap yields rest 2 and factor
1.00, and a 4-day gap yields rest 3 and factor 1.03. -/
theorem restDays_and_factor_table :
    (∀ sch : ScheduleState, sch.games ≠ [] →
      (∀ g ∈ sch.games.take sch.currentIndex.toNat, involvesTeam sch.teamId g = false) →
      computeRestDaysForUserTeam sch = 3)
    ∧ (∀ (sch : ScheduleState) (gPrev gCur : ScheduleGame),
      (sch.games.take sch.currentIndex.toNat).reverse.find? (involvesTeam sch.teamId)
        = some gPrev →
      getAtInt sch.games sch.currentIndex = some gCur →
      sch.games ≠ [] →
      computeRestDaysForUserTeam sch =
        (if Int.fdiv (gCur.date - gPrev.date) dayMs - 1 < 0 then 0
         else Int.fdiv (gCur.date - gPrev.date) dayMs - 1))
    ∧ (∀ d : Int, (d ≤ 0 → calcFatigueFactor d = 0.92)
        ∧ (d = 1 → calcFatigueFactor d = 0.97)
        ∧ (d = 2 → calcFatigueFactor d = 1.0)
        ∧ (d = 3 → calcFatigueFactor d = 1.03)
        ∧ (4 ≤ d → calcFatigueFactor d = 1.05))
    ∧ computeRestDaysForUserTeam cexGap1 = 0
    ∧ computeRestDaysForUserTeam cexGap3 = 2
    ∧ computeRestDaysForUserTeam cexGap4 = 3 := by
  refine ⟨?_, ?_, ?_, by decide, by decide, by decide⟩
  · intro sch hne hnone
    unfold computeRestDaysForUserTeam
    rw [if_neg (by simpa using hne)]
    have hfind : (sch.games.take sch.currentIndex.toNat).reverse.find?
        (involvesTeam sch.teamId) = none := by
      rw [List.find?_eq_none]
      intro g hg
      simp [hnone g (List.mem_reverse.mp hg)]
    simp [hfind]
  · intro sch gPrev gCur hfind hcur hne
    unfold computeRestDaysForUserTeam
    rw [if_neg (by simpa using hne)]
    simp [hfind, hcur]
  · intro d
    refine ⟨?_, ?_, ?_, ?_, ?_⟩ <;> intro hd <;> unfold calcFatigueFactor
    · rw [if_pos hd]
    · rw [hd]; rfl
    · rw [hd]; rfl
    · rw [hd]; rfl
    · rw [if_neg (by omega), if_neg (by omega), if_neg (by omega), if_neg (by omega)]

/-- Witness for C7 (amended): a one-game schedule at cursor 0 is a first
game (rest 3), and the formula branch applies to the 4-day-gap schedule. -/
theorem restDays_and_factor_table_witness :
    computeRestDaysForUserTeam { teamId := some "ATL", games := [cexUnsetA], currentIndex := 0 } = 3
    ∧ computeRestDaysForUserTeam cexGap4
      = (if Int.fdiv ((4 * 86400000 : Int) - 0) dayMs - 1 < 0 then 0
         else Int.fdiv ((4 * 86400000 : Int) - 0) dayMs - 1) := by
  constructor
  · exact restDays_and_factor_table.1
      { teamId := some "ATL", games := [cexUnsetA], currentIndex := 0 }
      (by decide) (by decide)
  · exact restDays_and_factor_table.2.1 cexGap4 cexScoredA
      { cexUnsetB with date := 4 * 86400000 } (by decide) (by decide) (by decide)

/-! ### C8 — idempotence of the schedule load -/

/-- Already-loaded guard: with a non-empty schedule stored for the same
team id, `generateSeasonSchedule` changes nothing and does not fetch. -/
theorem generateSeasonSchedule_noop (st : AppState) (tid : String)
    (fetch : Option (List ScheduleGame))
    (h1 : st.schedule.teamId = some tid) (h2 : st.schedule.games ≠ []) :
    generateSeasonSchedule fetch tid st = (st, 0) := by
  unfold generateSeasonSchedule
  rw [if_pos ⟨h1, by simpa using h2⟩]

/-- A fetch that passes the guard installs the fetched games under the
requested team id and counts one fetch. -/
theorem generateSeasonSchedule_loaded (st : AppState) (tid : String)
    (gs : List ScheduleGame)
    (h : ¬ (st.schedule.teamId = some tid ∧ ¬ st.schedule.games.isEmpty)) :
    (generateSeasonSchedule (some gs) tid st).1.schedule.teamId = some tid
    ∧ (generateSeasonSchedule (some gs) tid st).1.schedule.games = gs
    ∧ (generateSeasonSchedule (some gs) tid st).2 = 1 := by
  unfold generateSeasonSchedule
  rw [if_neg h]
  cases hg0 : gs.head? <;> cases hi : gs.findIdx? gameUnset <;> simp [hg0, hi]

/-- C8: `ensureLoaded` (`generateSeasonSchedule`) is idempotent: with a
non-empty schedule already stored for the team id a further call is a
no-op performing no fetch, and two consecutive calls for the same team id
(successful non-empty fetch) perform at most one fetch in total and leave
the state identical to the state after the first call. -/
theorem ensureLoaded_idempotent :
    (∀ (st : AppState) (tid : String) (fetch : Option (List ScheduleGame)),
      st.schedule.teamId = some tid → st.schedule.games ≠ [] →
      generateSeasonSchedule fetch tid st = (st, 0))
    ∧ (∀ (st : AppState) (tid : String) (gs : List ScheduleGame), gs ≠ [] →
      (generateSeasonSchedule (some gs) tid
          (generateSeasonSchedule (some gs) tid st).1)
        = ((generateSeasonSchedule (some gs) tid st).1, 0)
      ∧ (generateSeasonSchedule (some gs) tid st).2 ≤ 1) := by
  refine ⟨fun st tid fetch h1 h2 => generateSeasonSchedule_noop st tid fetch h1 h2, ?_⟩
  intro st tid gs hgs
  by_cases hguard : st.schedule.teamId = some tid ∧ ¬ st.schedule.games.isEmpty
  · have h1 : generateSeasonSchedule (some gs) tid st = (st, 0) := by
      unfold generateSeasonSchedule
      rw [if_pos hguard]
    rw [h1]
    exact ⟨h1, by norm_num⟩
  · have hl := generateSeasonSchedule_loaded st tid gs hguard
    refine ⟨generateSeasonSchedule_noop _ tid (some gs) hl.1 ?_, le_of_eq hl.2.2⟩
    rw [hl.2.1]
    exact hgs

/-- Witness for C8: loading the Hawks' one-game schedule twice from a
fresh state fetches once and the second call is a no-op. -/
theorem ensureLoaded_idempotent_witness :
    (generateSeasonSchedule (some [cexUnsetA]) "ATL"
        (generateSeasonSchedule (some [cexUnsetA]) "ATL" initialAppState).1)
      = ((generateSeasonSchedule (some [cexUnsetA]) "ATL" initialAppState).1, 0)
    ∧ (generateSeasonSchedule (some [cexUnsetA]) "ATL" initialAppState).2 ≤ 1 := by
  exact ensureLoaded_idempotent.2 initialAppState "ATL" [cexUnsetA] (by decide)

/-! ### C9 — next play-in matchup -/

/-- Spec-side selection predicate: a present matchup with no result yet
that involves the given team. -/
def playInCandidate (myId : String) : Option PlayInMatchup → Bool
  | none => false
  | some mu => mu.result = none ∧ (mu.home = some myId ∨ mu.away = some myId)

theorem playInStep_eq_candidate (myId : String) (m : Option PlayInMatchup) :
    playInStep (some myId) m = if playInCandidate myId m then m else none := by
  cases m with
  | none => rfl
  | some mu =>
    unfold playInStep playInCandidate
    cases hres : mu.result
    · by_cases hin : mu.home = some myId ∨ mu.away = some myId <;> simp [hres, hin]
    · simp [hres]

/-- C9: the next play-in matchup for the user's team is the first
matchup in the fixed order `[seven_vs_eight, nine_vs_ten, final]` that is
present, has no result yet and involves the user's team; in particular,
with `seven_vs_eight` resolved and `nine_vs_ten` unresolved and involving
the user's team, `nine_vs_ten` is returned — never `final`. -/
theorem nextPlayInMatchup_first (myId : String) (c : PlayInConfState)
    (m1 m2 : PlayInMatchup)
    (h78 : c.seven_vs_eight = some m1) (h78res : m1.result.isSome)
    (h910 : c.nine_vs_ten = some m2) (h910res : m2.result = none)
    (h910in : m2.home = some myId ∨ m2.away = some myId) :
    (∀ conf : PlayInConfState,
      nextPlayInMatchup (some myId) (some conf)
        = (if playInCandidate myId conf.seven_vs_eight then conf.seven_vs_eight
           else if playInCandidate myId conf.nine_vs_ten then conf.nine_vs_ten
           else if playInCandidate myId conf.final then conf.final
           else none))
    ∧ nextPlayInMatchup (some myId) (some c) = some m2 := by
  have hmain : ∀ conf : PlayInConfState,
      nextPlayInMatchup (some myId) (some conf)
        = (if playInCandidate myId conf.seven_vs_eight then conf.seven_vs_eight
           else if playInCandidate myId conf.nine_vs_ten then conf.nine_vs_ten
           else if playInCandidate myId conf.final then conf.final
           else none) := by
    intro conf
    unfold nextPlayInMatchup playInOrder
    dsimp only
    rw [List.findSome?_cons, playInStep_eq_candidate]
    by_cases h1 : playInCandidate myId conf.seven_vs_eight
    · rcases hm : conf.seven_vs_eight with _ | mu
      · rw [hm] at h1
        simp [playInCandidate] at h1
      · rw [hm] at h1
        simp [hm, h1]
    · simp only [h1, if_false, ite_false]
      rw [List.findSome?_cons, playInStep_eq_candidate]
      by_cases h2 : playInCandidate myId conf.nine_vs_ten
      · rcases hm : conf.nine_vs_ten with _ | mu
        · rw [hm] at h2
          simp [playInCandidate] at h2
        · rw [hm] at h2
          simp [hm, h2]
      · simp only [h2, if_false, ite_false]
        rw [List.findSome?_cons, playInStep_eq_candidate]
        by_cases h3 : playInCandidate myId conf.final
        · rcases hm : conf.final with _ | mu
          · rw [hm] at h3
            simp [playInCandidate] at h3
          · rw [hm] at h3
            simp [hm, h3]
        · simp [h3]
  refine ⟨hmain, ?_⟩
  rw [hmain c]
  have hc1 : playInCandidate myId c.seven_vs_eight = false := by
    rw [h78]
    unfold playInCandidate
    rcases Option.isSome_iff_exists.mp h78res with ⟨w, hw⟩
    simp [hw]
  have hc2 : playInCandidate myId c.nine_vs_ten = true := by
    rw [h910]
    unfold playInCandidate
    simp [h910res, h910in]
  rw [hc1, hc2]
  simp [h910]

/-- Witness for C9: east conference with 7v8 decided and 9v10 pending
for the user's team "ATL" yields the 9v10 matchup, not `final`. -/
theorem nextPlayInMatchup_first_witness :
    nextPlayInMatchup (some "ATL")
      (some { seven_vs_eight := some { home := some "MIA", away := some "CHI", result := some "MIA" }
              nine_vs_ten := some { home := some "ATL", away := some "BKN", result := none }
              final := some { home := some "MIA", away := some "ATL", result := none } })
      = some { home := some "ATL", away := some "BKN", result := none } := by
  exact (nextPlayInMatchup_first "ATL"
    { seven_vs_eight := some { home := some "MIA", away := some "CHI", result := some "MIA" }
      nine_vs_ten := some { home := some "ATL", away := some "BKN", result := none }
      final := some { home := some "MIA", away := some "ATL", result := none } }
    { home := some "MIA", away := some "CHI", result := some "MIA" }
    { home := some "ATL", away := some "BKN", result := none }
    rfl (by decide) rfl rfl (Or.inl rfl)).2

/-! ### Stage lemmas for `simulateGameProgress` -/

/-- The best-effort league advance touches only the scores view. -/
theorem applyLeagueAdvance_fields (lf : Option (List LeagueGame)) (st : AppState) :
    (applyLeagueAdvance lf st).schedule = st.schedule
    ∧ (applyLeagueAdvance lf st).stats = st.stats
    ∧ (applyLeagueAdvance lf st).standings = st.standings
    ∧ (applyLeagueAdvance lf st).teams = st.teams
    ∧ (applyLeagueAdvance lf st).weeklyNews = st.weeklyNews
    ∧ (applyLeagueAdvance lf st).news = st.news
    ∧ (applyLeagueAdvance lf st).progressTurns = st.progressTurns
    ∧ (applyLeagueAdvance lf st).currentDate = st.currentDate
    ∧ (applyLeagueAdvance lf st).last_progress_turn_id = st.last_progress_turn_id
    ∧ (applyLeagueAdvance lf st).apiKey = st.apiKey
    ∧ (applyLeagueAdvance lf st).selectedTeam = st.selectedTeam
    ∧ (applyLeagueAdvance lf st).scores.games
        = (match lf with
           | none => st.scores.games
           | some sim => (sim.map leagueGameToScoreEntry).reverse ++ st.scores.games) := by
  unfold applyLeagueAdvance
  cases lf with
  | none => simp
  | some sim => cases hh : sim.head? <;> simp [hh]

theorem bt_schedule (st : AppState) (tid : String) (f : ℚ) :
    (buildTacticsForTeam st tid f).2.schedule = st.schedule :=
  (buildTacticsForTeam_fields st tid f).1

theorem bt_scores (st : AppState) (tid : String) (f : ℚ) :
    (buildTacticsForTeam st tid f).2.scores = st.scores :=
  (buildTacticsForTeam_fields st tid f).2.1

theorem bt_news (st : AppState) (tid : String) (f : ℚ) :
    (buildTacticsForTeam st tid f).2.news = st.news :=
  (buildTacticsForTeam_fields st tid f).2.2.1

theorem bt_progressTurns (st : AppState) (tid : String) (f : ℚ) :
    (buildTacticsForTeam st tid f).2.progressTurns = st.progressTurns :=
  (buildTacticsForTeam_fields st tid f).2.2.2.1

theorem bt_currentDate (st : AppState) (tid : String) (f : ℚ) :
    (buildTacticsForTeam st tid f).2.currentDate = st.currentDate :=
  (buildTacticsForTeam_fields st tid f).2.2.2.2.1

theorem bt_lptid (st : AppState) (tid : String) (f : ℚ) :
    (buildTacticsForTeam st tid f).2.last_progress_turn_id = st.last_progress_turn_id :=
  (buildTacticsForTeam_fields st tid f).2.2.2.2.2.1

theorem bt_stats (st : AppState) (tid : String) (f : ℚ) :
    (buildTacticsForTeam st tid f).2.stats = st.stats :=
  (buildTacticsForTeam_fields st tid f).2.2.2.2.2.2.1

theorem bt_standings (st : AppState) (tid : String) (f : ℚ) :
    (buildTacticsForTeam st tid f).2.standings = st.standings :=
  (buildTacticsForTeam_fields st tid f).2.2.2.2.2.2.2.1

theorem bt_teams (st : AppState) (tid : String) (f : ℚ) :
    (buildTacticsForTeam st tid f).2.teams = st.teams :=
  (buildTacticsForTeam_fields st tid f).2.2.2.2.2.2.2.2.1

theorem bt_weeklyNews (st : AppState) (tid : String) (f : ℚ) :
    (buildTacticsForTeam st tid f).2.weeklyNews = st.weeklyNews :=
  (buildTacticsForTeam_fields st tid f).2.2.2.2.2.2.2.2.2.1

theorem bt_apiKey (st : AppState) (tid : String) (f : ℚ) :
    (buildTacticsForTeam st tid f).2.apiKey = st.apiKey :=
  (buildTacticsForTeam_fields st tid f).2.2.2.2.2.2.2.2.2.2.1

theorem bt_selectedTeam (st : AppState) (tid : String) (f : ℚ) :
    (buildTacticsForTeam st tid f).2.selectedTeam = st.selectedTeam :=
  (buildTacticsForTeam_fields st tid f).2.2.2.2.2.2.2.2.2.2.2

theorem la_schedule (lf : Option (List LeagueGame)) (st : AppState) :
    (applyLeagueAdvance lf st).schedule = st.schedule :=
  (applyLeagueAdvance_fields lf st).1

theorem la_stats (lf : Option (List LeagueGame)) (st : AppState) :
    (applyLeagueAdvance lf st).stats = st.stats :=
  (applyLeagueAdvance_fields lf st).2.1

theorem la_standings (lf : Option (List LeagueGame)) (st : AppState) :
    (applyLeagueAdvance lf st).standings = st.standings :=
  (applyLeagueAdvance_fields lf st).2.2.1

theorem la_teams (lf : Option (List LeagueGame)) (st : AppState) :
    (applyLeagueAdvance lf st).teams = st.teams :=
  (applyLeagueAdvance_fields lf st).2.2.2.1

theorem la_weeklyNews (lf : Option (List LeagueGame)) (st : AppState) :
    (applyLeagueAdvance lf st).weeklyNews = st.weeklyNews :=
  (applyLeagueAdvance_fields lf st).2.2.2.2.1

theorem la_news (lf : Option (List LeagueGame)) (st : AppState) :
    (applyLeagueAdvance lf st).news = st.news :=
  (applyLeagueAdvance_fields lf st).2.2.2.2.2.1

theorem la_progressTurns (lf : Option (List LeagueGame)) (st : AppState) :
    (applyLeagueAdvance lf st).progressTurns = st.progressTurns :=
  (applyLeagueAdvance_fields lf st).2.2.2.2.2.2.1

theorem la_currentDate (lf : Option (List LeagueGame)) (st : AppState) :
    (applyLeagueAdvance lf st).currentDate = st.currentDate :=
  (applyLeagueAdvance_fields lf st).2.2.2.2.2.2.2.1

theorem la_lptid (lf : Option (List LeagueGame)) (st : AppState) :
    (applyLeagueAdvance lf st).last_progress_turn_id = st.last_progress_turn_id :=
  (applyLeagueAdvance_fields lf st).2.2.2.2.2.2.2.2.1

theorem la_apiKey (lf : Option (List LeagueGame)) (st : AppState) :
    (applyLeagueAdvance lf st).apiKey = st.apiKey :=
  (applyLeagueAdvance_fields lf st).2.2.2.2.2.2.2.2.2.1

theorem la_selectedTeam (lf : Option (List LeagueGame)) (st : AppState) :
    (applyLeagueAdvance lf st).selectedTeam = st.selectedTeam :=
  (applyLeagueAdvance_fields lf st).2.2.2.2.2.2.2.2.2.2.1

theorem la_scores_games (lf : Option (List LeagueGame)) (st : AppState) :
    (applyLeagueAdvance lf st).scores.games
      = (match lf with
         | none => st.scores.games
         | some sim => (sim.map leagueGameToScoreEntry).reverse ++ st.scores.games) :=
  (applyLeagueAdvance_fields lf st).2.2.2.2.2.2.2.2.2.2.2

/-- The pre-game stage (league advance + fatigue + tactics builders)
leaves the schedule, the four gated caches, news, the turn counter and
the date unchanged, and extends the scores list only with the
league-advance entries. -/
theorem preGameState_fields (o : Oracles) (userTeam : Team) (nextGame : ScheduleGame)
    (s3 : AppState) :
    (preGameState o userTeam nextGame s3).schedule = s3.schedule
    ∧ (preGameState o userTeam nextGame s3).stats = s3.stats
    ∧ (preGameState o userTeam nextGame s3).standings = s3.standings
    ∧ (preGameState o userTeam nextGame s3).teams = s3.teams
    ∧ (preGameState o userTeam nextGame s3).weeklyNews = s3.weeklyNews
    ∧ (preGameState o userTeam nextGame s3).news = s3.news
    ∧ (preGameState o userTeam nextGame s3).progressTurns = s3.progressTurns
    ∧ (preGameState o userTeam nextGame s3).currentDate = s3.currentDate
    ∧ (preGameState o userTeam nextGame s3).last_progress_turn_id = s3.last_progress_turn_id
    ∧ (preGameState o userTeam nextGame s3).apiKey = s3.apiKey
    ∧ (preGameState o userTeam nextGame s3).selectedTeam = s3.selectedTeam
    ∧ (preGameState o userTeam nextGame s3).scores.games
        = (match o.leagueFetch with
           | none => s3.scores.games
           | some sim => (sim.map leagueGameToScoreEntry).reverse ++ s3.scores.games) := by
  unfold preGameState
  refine ⟨?_, ?_, ?_, ?_, ?_, ?_, ?_, ?_, ?_, ?_, ?_, ?_⟩ <;>
    simp only [bt_schedule, bt_scores, bt_news, bt_progressTurns, bt_currentDate, bt_lptid,
      bt_stats, bt_standings, bt_teams, bt_weeklyNews, bt_apiKey, bt_selectedTeam,
      la_schedule, la_stats, la_standings, la_teams, la_weeklyNews, la_news,
      la_progressTurns, la_currentDate, la_lptid, la_apiKey, la_selectedTeam,
      la_scores_games]

/-- Field-level reading of the success branch. -/
theorem applySimSuccess_fields (data : SimResponse) (userTeam homeTeam awayTeam : Team)
    (nextGame : ScheduleGame) (isUserHome : Bool) (st : AppState) :
    (applySimSuccess data userTeam homeTeam awayTeam nextGame isUserHome st).1.home_score
      = scoreFor data.final_score homeTeam.id
    ∧ (applySimSuccess data userTeam homeTeam awayTeam nextGame isUserHome st).1.away_score
      = scoreFor data.final_score awayTeam.id
    ∧ (applySimSuccess data userTeam homeTeam awayTeam nextGame isUserHome st).1.result_for_user_team
      = some (if (if isUserHome then scoreFor data.final_score awayTeam.id
                  else scoreFor data.final_score homeTeam.id)
                < (if isUserHome then scoreFor data.final_score homeTeam.id
                  else scoreFor data.final_score awayTeam.id) then "W" else "L")
    ∧ (applySimSuccess data userTeam homeTeam awayTeam nextGame isUserHome st).2.stats.lastLoaded
      = none
    ∧ (applySimSuccess data userTeam homeTeam awayTeam nextGame isUserHome st).2.standings.lastLoaded
      = none
    ∧ (applySimSuccess data userTeam homeTeam awayTeam nextGame isUserHome st).2.teams.lastLoaded
      = none
    ∧ (applySimSuccess data userTeam homeTeam awayTeam nextGame isUserHome st).2.weeklyNews.lastLoaded
      = none
    ∧ (applySimSuccess data userTeam homeTeam awayTeam nextGame isUserHome st).2.teams.list
      = st.teams.list
    ∧ (applySimSuccess data userTeam homeTeam awayTeam nextGame isUserHome st).2.apiKey
      = st.apiKey :=
  ⟨rfl, rfl, rfl, rfl, rfl, rfl, rfl, rfl, rfl⟩

theorem ass_result (data : SimResponse) (userTeam homeTeam awayTeam : Team)
    (nextGame : ScheduleGame) (isUserHome : Bool) (st : AppState) :
    (applySimSuccess data userTeam homeTeam awayTeam nextGame isUserHome st).1.result_for_user_team
      = some (if (if isUserHome then scoreFor data.final_score awayTeam.id
                  else scoreFor data.final_score homeTeam.id)
                < (if isUserHome then scoreFor data.final_score homeTeam.id
                  else scoreFor data.final_score awayTeam.id) then "W" else "L") :=
  (applySimSuccess_fields data userTeam homeTeam awayTeam nextGame isUserHome st).2.2.1

theorem ass_home_score (data : SimResponse) (userTeam homeTeam awayTeam : Team)
    (nextGame : ScheduleGame) (isUserHome : Bool) (st : AppState) :
    (applySimSuccess data userTeam homeTeam awayTeam nextGame isUserHome st).1.home_score
      = scoreFor data.final_score homeTeam.id :=
  (applySimSuccess_fields data userTeam homeTeam awayTeam nextGame isUserHome st).1

theorem ass_away_score (data : SimResponse) (userTeam homeTeam awayTeam : Team)
    (nextGame : ScheduleGame) (isUserHome : Bool) (st : AppState) :
    (applySimSuccess data userTeam homeTeam awayTeam nextGame isUserHome st).1.away_score
      = scoreFor data.final_score awayTeam.id :=
  (applySimSuccess_fields data userTeam homeTeam awayTeam nextGame isUserHome st).2.1

/-- The derived result string is always `W` or `L`, and ties give `L`. -/
theorem resultStr_WL (iUH : Bool) (sh sa : Int) :
    ((if (if iUH then sa else sh) < (if iUH then sh else sa) then "W" else "L") = "W"
     ∨ (if (if iUH then sa else sh) < (if iUH then sh else sa) then "W" else "L") = "L")
    ∧ (sh = sa →
       (if (if iUH then sa else sh) < (if iUH then sh else sa) then "W" else "L") = "L") := by
  constructor
  · by_cases hc : (if iUH then sa else sh) < (if iUH then sh else sa)
    · left
      simp [hc]
    · right
      simp [hc]
  · intro heq
    subst heq
    cases iUH <;> simp

/-! ### C10 — the applied result is always W or L -/

/-- C10: for every successfully applied game, `result_for_user_team` is
`W` or `L` — never null; a team id missing from the simulator's
final-score map counts as score 0; equal final scores yield `L`. -/
theorem applied_result_never_null (o : Oracles) (s0 : AppState) (r : AppliedResult)
    (h : (simulateGameProgress o s0).1 = SimOutcome.applied r) :
    (r.result_for_user_team = some "W" ∨ r.result_for_user_team = some "L")
    ∧ (r.home_score = r.away_score → r.result_for_user_team = some "L")
    ∧ (∀ (fs : List (String × Int)) (tid : String),
        (∀ p ∈ fs, p.1 ≠ tid) → scoreFor fs tid = 0) := by
  have hchar : ∃ (data : SimResponse) (hT aT : Team) (ng : ScheduleGame) (iUH : Bool)
      (st : AppState),
      r = (applySimSuccess data (s0.selectedTeam.getD (lookupTeam "ATL"))
        hT aT ng iUH st).1 := by
    unfold simulateGameProgress at h
    split at h
    · dsimp only at h
      split at h <;> simp at h
    · dsimp only at h
      split at h
      · simp at h
      · dsimp only at h
        exact ⟨_, _, _, _, _, _, (SimOutcome.applied.inj h).symm⟩
  obtain ⟨data, hT, aT, ng, iUH, st, hr⟩ := hchar
  subst hr
  refine ⟨?_, ?_, ?_⟩
  · rw [ass_result]
    rcases (resultStr_WL iUH (scoreFor data.final_score hT.id)
        (scoreFor data.final_score aT.id)).1 with hw | hl
    · left
      rw [hw]
    · right
      rw [hl]
  · intro heqs
    rw [ass_home_score, ass_away_score] at heqs
    rw [ass_result]
    exact congrArg some ((resultStr_WL _ _ _).2 heqs)
  · intro fs tid hmiss
    have hn : fs.find? (fun p => p.1 = tid) = none := by
      rw [List.find?_eq_none]
      intro p hp
      simp [hmiss p hp]
    simp [scoreFor, alistLookup, hn]

/-- The state used for the end-to-end runs: Hawks selected, a loaded
two-game schedule (first decided, second pending), all markers set. -/
def cexRunState : AppState :=
  { initialAppState with
    apiKey := some "k"
    selectedTeam := some { id := "ATL", name := "Atlanta Hawks" }
    schedule := { teamId := some "ATL"
                  games := [cexScoredA, { cexUnsetB with date := 4 * 86400000 }]
                  currentIndex := 0 }
    teams := { list := ["row"], detailById := [], lastLoaded := some "t" }
    stats := { leaders := some "x", lastLoaded := some "t" }
    standings := { east := ["e"], west := ["w"], lastLoaded := some "t" }
    weeklyNews := { items := ["n"], lastLoaded := some "t" } }

/-- One league game decided by the advance-league call. -/
def cexLeagueGame : LeagueGame :=
  { game_id := "L1", date := 3 * 86400000, home_team_id := "DEN", away_team_id := "MIA",
    home_score := 101, away_score := 99, status := none, is_overtime := none }

/-- Oracles for a run whose simulate-game call succeeds with a tied
score that omits the home team's id. -/
def cexOraclesOK : Oracles :=
  { scheduleFetch := none
    leagueFetch := some [cexLeagueGame]
    simFetch := some { final_score := [("CHI", 100)], commentary := none }
    reportFetch := none }

/-- Witness for C10: in a concrete successful run with `final_score`
lacking the home team's id (score 0) and the away side at 100, the
result is `L` (not null), and a missing id scores 0. -/
theorem applied_result_never_null_witness :
    ((simulateGameProgress cexOraclesOK cexRunState).1 =
      SimOutcome.applied
        { game_id := "u2"
          game_date := 4 * 86400000
          home_team_id := "ATL"
          away_team_id := "CHI"
          home_team_name := "Atlanta Hawks"
          away_team_name := "Chicago Bulls"
          home_score := 0
          away_score := 100
          result_for_user_team := some "L"
          log_entry :=
            { game_id := "u2"
              date := 4 * 86400000
              home_team_id := "ATL"
              away_team_id := "CHI"
              home_team_name := some "Atlanta Hawks"
              away_team_name := some "Chicago Bulls"
              home_score := some 0
              away_score := some 100
              status := some "final"
              is_overtime := some false
              top_performers := some [] } })
    ∧ ((({ game_id := "u2"
           game_date := 4 * 86400000
           home_team_id := "ATL"
           away_team_id := "CHI"
           home_team_name := "Atlanta Hawks"
           away_team_name := "Chicago Bulls"
           home_score := 0
           away_score := 100
           result_for_user_team := some "L"
           log_entry :=
             { game_id := "u2"
               date := 4 * 86400000
               home_team_id := "ATL"
               away_team_id := "CHI"
               home_team_name := some "Atlanta Hawks"
               away_team_name := some "Chicago Bulls"
               home_score := some 0
               away_score := some 100
               status := some "final"
               is_overtime := some false
               top_performers := some [] } } : AppliedResult).result_for_user_team = some "W")
        ∨ (({ game_id := "u2"
              game_date := 4 * 86400000
              home_team_id := "ATL"
              away_team_id := "CHI"
              home_team_name := "Atlanta Hawks"
              away_team_name := "Chicago Bulls"
              home_score := 0
              away_score := 100
              result_for_user_team := some "L"
              log_entry :=
                { game_id := "u2"
                  date := 4 * 86400000
                  home_team_id := "ATL"
                  away_team_id := "CHI"
                  home_team_name := some "Atlanta Hawks"
                  away_team_name := some "Chicago Bulls"
                  home_score := some 0
                  away_score := some 100
                  status := some "final"
                  is_overtime := some false
                  top_performers := some [] } } : AppliedResult).result_for_user_team = some "L"))
    ∧ scoreFor [("CHI", 100)] "ATL" = 0 := by
  have hrun : (simulateGameProgress cexOraclesOK cexRunState).1 =
      SimOutcome.applied
        { game_id := "u2"
          game_date := 4 * 86400000
          home_team_id := "ATL"
          away_team_id := "CHI"
          home_team_name := "Atlanta Hawks"
          away_team_name := "Chicago Bulls"
          home_score := 0
          away_score := 100
          result_for_user_team := some "L"
          log_entry :=
            { game_id := "u2"
              date := 4 * 86400000
              home_team_id := "ATL"
              away_team_id := "CHI"
              home_team_name := some "Atlanta Hawks"
              away_team_name := some "Chicago Bulls"
              home_score := some 0
              away_score := some 100
              status := some "final"
              is_overtime := some false
              top_performers := some [] } } := by decide
  have hmain := applied_result_never_null cexOraclesOK cexRunState _ hrun
  exact ⟨hrun, hmain.1, hmain.2.2 [("CHI", 100)] "ATL" (by decide)⟩

/-! ### C5 — failed simulate-game call and state preservation -/

/-- Oracles for a run whose league advance succeeds but whose
simulate-game call fails. -/
def cexOraclesFail : Oracles :=
  { scheduleFetch := none
    leagueFetch := some [cexLeagueGame]
    simFetch := none
    reportFetch := none }

/-- C5 counterexample: when the league advance succeeded and then the
simulate-game call fails, the advance aborts (`false`) but the scores
cache has already been extended with the league-advance game — the
cached views are not all left unmodified. -/
theorem simFail_mutates_scores_view :
    (simulateGameProgress cexOraclesFail cexRunState).1 = SimOutcome.errored
    ∧ cexRunState.scores.games = []
    ∧ (simulateGameProgress cexOraclesFail cexRunState).2.scores.games
        = [leagueGameToScoreEntry cexLeagueGame] := by decide

/-- C5 (amended): a failed simulate-game call aborts the advance with an
error result and leaves the schedule entries, the four cache markers, the
news list, the turn counter, the in-game date and the last-turn id
unmodified — but mutations made earlier in the flow remain: the schedule
cursor is repositioned at the next unset entry, and the scores view keeps
the entries merged by the best-effort league advance. -/
theorem simFail_preserves_state (o : Oracles) (s0 : AppState) (i : Nat)
    (htid : ¬ s0.schedule.teamId = none)
    (hne : ¬ s0.schedule.games = [])
    (hunset : s0.schedule.games.findIdx? gameUnset = some i)
    (hsim : o.simFetch = none) :
    (simulateGameProgress o s0).1 = SimOutcome.errored
    ∧ (simulateGameProgress o s0).2.schedule.games = s0.schedule.games
    ∧ (simulateGameProgress o s0).2.schedule.currentIndex = (i : Int)
    ∧ (simulateGameProgress o s0).2.stats = s0.stats
    ∧ (simulateGameProgress o s0).2.standings = s0.standings
    ∧ (simulateGameProgress o s0).2.teams = s0.teams
    ∧ (simulateGameProgress o s0).2.weeklyNews = s0.weeklyNews
    ∧ (simulateGameProgress o s0).2.news = s0.news
    ∧ (simulateGameProgress o s0).2.progressTurns = s0.progressTurns
    ∧ (simulateGameProgress o s0).2.currentDate = s0.currentDate
    ∧ (simulateGameProgress o s0).2.last_progress_turn_id = s0.last_progress_turn_id
    ∧ (simulateGameProgress o s0).2.scores.games
        = (match o.leagueFetch with
           | none => s0.scores.games
           | some sim => (sim.map leagueGameToScoreEntry).reverse ++ s0.scores.games) := by
  obtain ⟨g, hgi⟩ : ∃ g, s0.schedule.games[i]? = some g := by
    have hlt := (findIdx?_some_minUnset hunset).1
    exact ⟨s0.schedule.games[i], List.getElem?_eq_getElem hlt⟩
  have hs2 : ensureScheduleLoaded o s0 = s0 := by
    unfold ensureScheduleLoaded
    dsimp only
    rw [if_neg htid, if_neg (by simpa using hne)]
  have hnext : getNextScheduledGame s0.schedule
      = (some g, { s0.schedule with currentIndex := (i : Int) }) := by
    unfold getNextScheduledGame
    rw [if_neg (by simpa using hne), hunset]
    dsimp only
    rw [hgi]
  have hrun : simulateGameProgress o s0
      = (SimOutcome.errored,
         preGameState o (s0.selectedTeam.getD (lookupTeam "ATL")) g
           { s0 with schedule := { s0.schedule with currentIndex := (i : Int) } }) := by
    unfold simulateGameProgress
    rw [hs2]
    dsimp only
    rw [hnext]
    dsimp only
    rw [hsim]
  obtain ⟨p1, p2, p3, p4, p5, p6, p7, p8, p9, p10, p11, p12⟩ :=
    preGameState_fields o (s0.selectedTeam.getD (lookupTeam "ATL")) g
      { s0 with schedule := { s0.schedule with currentIndex := (i : Int) } }
  rw [hrun]
  exact ⟨rfl, by rw [p1], by rw [p1], by rw [p2], by rw [p3], by rw [p4], by rw [p5],
    by rw [p6], by rw [p7], by rw [p8], by rw [p9], by rw [p12]⟩

/-- Witness for C5 (amended): the concrete failing run aborts with the
error result, keeps the schedule entries and the stats view, repositions
the cursor at 1, and its scores list is the league-advance merge. -/
theorem simFail_preserves_state_witness :
    (simulateGameProgress cexOraclesFail cexRunState).1 = SimOutcome.errored
    ∧ (simulateGameProgress cexOraclesFail cexRunState).2.schedule.games
        = cexRunState.schedule.games
    ∧ (simulateGameProgress cexOraclesFail cexRunState).2.schedule.currentIndex = 1
    ∧ (simulateGameProgress cexOraclesFail cexRunState).2.stats = cexRunState.stats := by
  have h := simFail_preserves_state cexOraclesFail cexRunState 1
    (by decide) (by decide) (by decide) rfl
  exact ⟨h.1, h.2.1, h.2.2.1, h.2.2.2.1⟩

/-! ### C4 — cache invalidation and refetch-on-access -/

/-- Whether a `simulateGameProgress` outcome is the success case. -/
def SimOutcome.isApplied : SimOutcome → Bool
  | .applied _ => true
  | _ => false

/-- A successful advance ends in the success-branch state. -/
theorem simulateGameProgress_applied_form (o : Oracles) (s0 : AppState) (r : AppliedResult)
    (h : (simulateGameProgress o s0).1 = SimOutcome.applied r) :
    ∃ (data : SimResponse) (hT aT : Team) (ng : ScheduleGame) (iUH : Bool) (st : AppState),
      simulateGameProgress o s0
        = (SimOutcome.applied
            (applySimSuccess data (s0.selectedTeam.getD (lookupTeam "ATL")) hT aT ng iUH st).1,
           (applySimSuccess data (s0.selectedTeam.getD (lookupTeam "ATL")) hT aT ng iUH st).2) := by
  rcases hnext : getNextScheduledGame (ensureScheduleLoaded o s0).schedule with ⟨og, schNext⟩
  rcases og with _ | g
  · exfalso
    unfold simulateGameProgress at h
    dsimp only at h
    rw [hnext] at h
    simp at h
  · rcases hsim : o.simFetch with _ | data
    · exfalso
      unfold simulateGameProgress at h
      dsimp only at h
      rw [hnext] at h
      dsimp only at h
      rw [hsim] at h
      simp at h
    · refine ⟨data, lookupTeam g.home_team_id, lookupTeam g.away_team_id, g,
        decide ((s0.selectedTeam.getD (lookupTeam "ATL")).id = (lookupTeam g.home_team_id).id),
        preGameState o (s0.selectedTeam.getD (lookupTeam "ATL")) g
          { ensureScheduleLoaded o s0 with schedule := schNext }, ?_⟩
      unfold simulateGameProgress
      dsimp only
      rw [hnext]
      dsimp only
      rw [hsim]

theorem jsOrStr_ne_empty (v : Option String) (fb : String) (h : fb ≠ "") :
    jsOrStr v fb ≠ "" := by
  unfold jsOrStr
  cases v with
  | none => exact h
  | some s =>
    by_cases hs : s = "" <;> simp [hs, h]

/-- Standings accessor: with a null marker the next access fetches once
and sets the marker, and the access after that fetches nothing. -/
theorem standings_access_twice (sd : StandingsData) (f2 : Option StandingsData)
    (now : String) (hnow : now ≠ "") (st : AppState)
    (hmark : st.standings.lastLoaded = none) :
    (loadStandingsIfNeeded (some sd) now false st).2 = 1
    ∧ (loadStandingsIfNeeded f2 now false (loadStandingsIfNeeded (some sd) now false st).1)
        = ((loadStandingsIfNeeded (some sd) now false st).1, 0) := by
  have h1 : loadStandingsIfNeeded (some sd) now false st
      = ({ st with standings := { east := sd.east, west := sd.west, lastLoaded := some now } },
         1) := by
    unfold loadStandingsIfNeeded
    rw [if_neg (by simp [hmark, strTruthy])]
  rw [h1]
  refine ⟨rfl, ?_⟩
  unfold loadStandingsIfNeeded
  rw [if_pos ⟨by simp, by simp [strTruthy, hnow]⟩]

/-- Stats accessor: same refetch-once behavior. -/
theorem stats_access_twice (std : StatsData) (f2 : Option StatsData)
    (now : String) (hnow : now ≠ "") (st : AppState)
    (hmark : st.stats.lastLoaded = none) :
    (loadStatsLeadersIfNeeded (some std) now false st).2 = 1
    ∧ (loadStatsLeadersIfNeeded f2 now false
        (loadStatsLeadersIfNeeded (some std) now false st).1)
        = ((loadStatsLeadersIfNeeded (some std) now false st).1, 0) := by
  have h1 : loadStatsLeadersIfNeeded (some std) now false st
      = ({ st with stats :=
            { leaders := std.leaders, lastLoaded := some (jsOrStr std.updated_at now) } },
         1) := by
    unfold loadStatsLeadersIfNeeded
    rw [if_neg (by simp [hmark, strTruthy])]
  rw [h1]
  refine ⟨rfl, ?_⟩
  unfold loadStatsLeadersIfNeeded
  rw [if_pos ⟨by simp, by simp [strTruthy, jsOrStr_ne_empty std.updated_at now hnow]⟩]

/-- Weekly-news accessor: same refetch-once behavior, given an API key. -/
theorem weekly_access_twice (wd : WeeklyData) (f2 : Option WeeklyData)
    (now : String) (hnow : now ≠ "") (st : AppState)
    (hkey : strTruthy st.apiKey = true)
    (hmark : st.weeklyNews.lastLoaded = none) :
    (loadWeeklyNewsIfNeeded (some wd) now false st).2 = 1
    ∧ (loadWeeklyNewsIfNeeded f2 now false (loadWeeklyNewsIfNeeded (some wd) now false st).1)
        = ((loadWeeklyNewsIfNeeded (some wd) now false st).1, 0) := by
  have h1 : loadWeeklyNewsIfNeeded (some wd) now false st
      = ({ st with weeklyNews :=
            { items := wd.items, lastLoaded := some (jsOrStr wd.current_date now) } },
         1) := by
    unfold loadWeeklyNewsIfNeeded
    rw [if_neg (by simp [hkey]), if_neg (by simp [hmark, strTruthy])]
  rw [h1]
  refine ⟨rfl, ?_⟩
  unfold loadWeeklyNewsIfNeeded
  rw [if_neg (by simp [hkey]),
    if_pos ⟨by simp, by simp [strTruthy, jsOrStr_ne_empty wd.current_date now hnow]⟩]

/-- Teams accessor: a non-empty cached list suppresses the fetch even
when the marker is null. -/
theorem teams_access_skip (fetch : Option (List String)) (now : String) (st : AppState)
    (hlist : ¬ st.teams.list = []) :
    loadTeamsListIfNeeded fetch now false st = (st, 0) := by
  unfold loadTeamsListIfNeeded
  rw [if_pos ⟨by simp, by simpa using hlist⟩]

/-- C4 counterexample: after a concrete successfully applied game the
teams marker is null and the teams list is still populated, and the next
access to the teams view performs no fetch and changes nothing — the
teams view is not refetched once on its next access. -/
theorem teams_cache_not_refetched :
    (simulateGameProgress cexOraclesOK cexRunState).1.isApplied = true
    ∧ (simulateGameProgress cexOraclesOK cexRunState).2.teams.lastLoaded = none
    ∧ (simulateGameProgress cexOraclesOK cexRunState).2.teams.list ≠ []
    ∧ (loadTeamsListIfNeeded (some ["fresh"]) "now" false
        (simulateGameProgress cexOraclesOK cexRunState).2).2 = 0
    ∧ (loadTeamsListIfNeeded (some ["fresh"]) "now" false
        (simulateGameProgress cexOraclesOK cexRunState).2).1
        = (simulateGameProgress cexOraclesOK cexRunState).2 := by decide

/-- C4 (amended): after every applied game the stats, standings, teams
and weekly-news markers are set to null; the stats, standings and
weekly-news views (the last given an API key) are then refetched exactly
once on their next access, fetching only while the marker is falsy or a
refresh is forced; the teams accessor, however, gates on whether its
cached list is empty rather than on the marker, so the teams view is not
refetched while its list is non-empty. -/
theorem cache_invalidation_behavior (o : Oracles) (s0 : AppState) (r : AppliedResult)
    (sd : StandingsData) (std : StatsData) (wd : WeeklyData) (rows : List String)
    (f2 : Option StandingsData) (f3 : Option StatsData) (f4 : Option WeeklyData)
    (now : String) (hnow : now ≠ "")
    (hap : (simulateGameProgress o s0).1 = SimOutcome.applied r)
    (hkey : strTruthy (simulateGameProgress o s0).2.apiKey = true)
    (hlist : ¬ (simulateGameProgress o s0).2.teams.list = []) :
    ((simulateGameProgress o s0).2.stats.lastLoaded = none
      ∧ (simulateGameProgress o s0).2.standings.lastLoaded = none
      ∧ (simulateGameProgress o s0).2.teams.lastLoaded = none
      ∧ (simulateGameProgress o s0).2.weeklyNews.lastLoaded = none)
    ∧ ((loadStandingsIfNeeded (some sd) now false (simulateGameProgress o s0).2).2 = 1
      ∧ (loadStandingsIfNeeded f2 now false
          (loadStandingsIfNeeded (some sd) now false (simulateGameProgress o s0).2).1)
          = ((loadStandingsIfNeeded (some sd) now false (simulateGameProgress o s0).2).1, 0))
    ∧ ((loadStatsLeadersIfNeeded (some std) now false (simulateGameProgress o s0).2).2 = 1
      ∧ (loadStatsLeadersIfNeeded f3 now false
          (loadStatsLeadersIfNeeded (some std) now false (simulateGameProgress o s0).2).1)
          = ((loadStatsLeadersIfNeeded (some std) now false (simulateGameProgress o s0).2).1, 0))
    ∧ ((loadWeeklyNewsIfNeeded (some wd) now false (simulateGameProgress o s0).2).2 = 1
      ∧ (loadWeeklyNewsIfNeeded f4 now false
          (loadWeeklyNewsIfNeeded (some wd) now false (simulateGameProgress o s0).2).1)
          = ((loadWeeklyNewsIfNeeded (some wd) now false (simulateGameProgress o s0).2).1, 0))
    ∧ loadTeamsListIfNeeded (some rows) now false (simulateGameProgress o s0).2
        = ((simulateGameProgress o s0).2, 0) := by
  obtain ⟨data, hT, aT, ng, iUH, st, hform⟩ := simulateGameProgress_applied_form o s0 r hap
  have h2 : (simulateGameProgress o s0).2
      = (applySimSuccess data (s0.selectedTeam.getD (lookupTeam "ATL")) hT aT ng iUH st).2 := by
    rw [hform]
  have hF := applySimSuccess_fields data (s0.selectedTeam.getD (lookupTeam "ATL"))
    hT aT ng iUH st
  rw [h2] at hkey hlist ⊢
  refine ⟨⟨hF.2.2.2.1, hF.2.2.2.2.1, hF.2.2.2.2.2.1, hF.2.2.2.2.2.2.1⟩, ?_, ?_, ?_, ?_⟩
  · exact standings_access_twice sd f2 now hnow _ hF.2.2.2.2.1
  · exact stats_access_twice std f3 now hnow _ hF.2.2.2.1
  · exact weekly_access_twice wd f4 now hnow _ hkey hF.2.2.2.2.2.2.1
  · exact teams_access_skip (some rows) now _ hlist

/-- Witness for C4 (amended): the concrete successful run has all four
markers null, and a standings access on its result fetches exactly
once. -/
theorem cache_invalidation_behavior_witness :
    ((simulateGameProgress cexOraclesOK cexRunState).2.stats.lastLoaded = none
      ∧ (simulateGameProgress cexOraclesOK cexRunState).2.standings.lastLoaded = none
      ∧ (simulateGameProgress cexOraclesOK cexRunState).2.teams.lastLoaded = none
      ∧ (simulateGameProgress cexOraclesOK cexRunState).2.weeklyNews.lastLoaded = none)
    ∧ (loadStandingsIfNeeded (some { east := ["e2"], west := ["w2"] }) "now" false
        (simulateGameProgress cexOraclesOK cexRunState).2).2 = 1 := by
  have h := cache_invalidation_behavior cexOraclesOK cexRunState
    { game_id := "u2"
      game_date := 4 * 86400000
      home_team_id := "ATL"
      away_team_id := "CHI"
      home_team_name := "Atlanta Hawks"
      away_team_name := "Chicago Bulls"
      home_score := 0
      away_score := 100
      result_for_user_team := some "L"
      log_entry :=
        { game_id := "u2"
          date := 4 * 86400000
          home_team_id := "ATL"
          away_team_id := "CHI"
          home_team_name := some "Atlanta Hawks"
          away_team_name := some "Chicago Bulls"
          home_score := some 0
          away_score := some 100
          status := some "final"
          is_overtime := some false
          top_performers := some [] } }
    { east := ["e2"], west := ["w2"] } { leaders := none, updated_at := none }
    { items := [], current_date := none } ["fresh"] none none none "now"
    (by decide) (by decide) (by decide) (by decide)
  exact ⟨h.1, h.2.1.1⟩

/-! ### C6 — team switching: schedule vs tactics lifecycles -/

theorem alistLookup_append_single {α : Type} (m : List (String × α)) (k k' : String)
    (v : α) (h : ¬ k' = k) : alistLookup (m ++ [(k, v)]) k' = alistLookup m k' := by
  unfold alistLookup
  rw [List.find?_append]
  have h2 : List.find? (fun p : String × α => p.1 = k') [(k, v)] = none := by
    simp [List.find?, decide_eq_false (Ne.symm h)]
  rw [h2]
  cases hf : m.find? (fun p : String × α => p.1 = k') <;> simp [hf]

theorem alistLookup_append_self {α : Type} (m : List (String × α)) (k : String) (v : α)
    (h : alistLookup m k = none) : alistLookup (m ++ [(k, v)]) k = some v := by
  unfold alistLookup at h ⊢
  rw [List.find?_append, Option.map_eq_none'.mp h]
  simp [List.find?]

/-- The roster-summary load touches only the rosters map. -/
theorem loadRosterForTeam_fields (fetch : Option String) (tid : String) (st : AppState) :
    (loadRosterForTeam fetch tid st).schedule = st.schedule
    ∧ (loadRosterForTeam fetch tid st).scores = st.scores
    ∧ (loadRosterForTeam fetch tid st).progressTurns = st.progressTurns
    ∧ (loadRosterForTeam fetch tid st).postseason = st.postseason
    ∧ (loadRosterForTeam fetch tid st).tacticsByTeam = st.tacticsByTeam
    ∧ (loadRosterForTeam fetch tid st).selectedTeam = st.selectedTeam := by
  unfold loadRosterForTeam
  by_cases h1 : tid = "" <;> simp [h1]
  by_cases h2 : (alistLookup st.rosters tid).isSome <;> simp [h2]
  cases fetch <;> simp

theorem lr_schedule (fetch : Option String) (tid : String) (st : AppState) :
    (loadRosterForTeam fetch tid st).schedule = st.schedule :=
  (loadRosterForTeam_fields fetch tid st).1

theorem lr_scores (fetch : Option String) (tid : String) (st : AppState) :
    (loadRosterForTeam fetch tid st).scores = st.scores :=
  (loadRosterForTeam_fields fetch tid st).2.1

theorem lr_progressTurns (fetch : Option String) (tid : String) (st : AppState) :
    (loadRosterForTeam fetch tid st).progressTurns = st.progressTurns :=
  (loadRosterForTeam_fields fetch tid st).2.2.1

theorem lr_postseason (fetch : Option String) (tid : String) (st : AppState) :
    (loadRosterForTeam fetch tid st).postseason = st.postseason :=
  (loadRosterForTeam_fields fetch tid st).2.2.2.1

theorem lr_tactics (fetch : Option String) (tid : String) (st : AppState) :
    (loadRosterForTeam fetch tid st).tacticsByTeam = st.tacticsByTeam :=
  (loadRosterForTeam_fields fetch tid st).2.2.2.2.1

/-- A modified tactics record for the Hawks. -/
def cexModifiedTactics : Tactics := { getDefaultTactics with pace := 2 }

/-- The Hawks selected, with a modified Hawks tactics profile stored. -/
def cexSelectState : AppState :=
  { initialAppState with
    selectedTeam := some { id := "ATL", name := "Atlanta Hawks" }
    tacticsByTeam := [("ATL", cexModifiedTactics)] }

/-- C6 counterexample: after switching from the Hawks (whose profile was
modified) to the Celtics, the Hawks' TacticsProfile is still stored
unchanged — and re-selecting the Hawks brings the modified profile back
instead of a default one.  The profile is not discarded or reset. -/
theorem tactics_survive_team_switch :
    (selectTeam none "BOS" cexSelectState).selectedTeam
      = some { id := "BOS", name := "Boston Celtics" }
    ∧ alistLookup (selectTeam none "BOS" cexSelectState).tacticsByTeam "ATL"
        = some cexModifiedTactics
    ∧ alistLookup
        (selectTeam none "ATL" (selectTeam none "BOS" cexSelectState)).tacticsByTeam "ATL"
        = some cexModifiedTactics
    ∧ cexModifiedTactics ≠ getDefaultTactics := by decide

/-- C6 (amended): selecting a different team discards the previous
Schedule wholesale — the cached views are replaced, the schedule is
re-keyed to the new team with no games and cursor 0, and progress and
postseason state are cleared — but TacticsProfiles are not discarded:
they live in a per-team map that persists across selections; the new
team's profile is created with defaults only when absent, and the
previously selected team's profile is retained unchanged. -/
theorem selectTeam_resets_schedule_not_tactics (st : AppState) (a b : String) (tB : Team)
    (rosterFetch : Option String)
    (hfind : TEAMS.find? (fun t => t.id = b) = some tB)
    (hb : ¬ b = "") (hab : ¬ a = b) :
    (selectTeam rosterFetch b st).schedule
      = { teamId := some tB.id, games := [], currentIndex := 0 }
    ∧ (selectTeam rosterFetch b st).scores = { latest_date := none, games := [] }
    ∧ (selectTeam rosterFetch b st).progressTurns = 0
    ∧ (selectTeam rosterFetch b st).postseason = none
    ∧ alistLookup (selectTeam rosterFetch b st).tacticsByTeam a
        = alistLookup st.tacticsByTeam a
    ∧ alistLookup (selectTeam rosterFetch b st).tacticsByTeam tB.id
        = some ((alistLookup st.tacticsByTeam tB.id).getD getDefaultTactics) := by
  have hid : tB.id = b := by
    have hp := List.find?_some hfind
    simpa using hp
  unfold selectTeam
  rw [hfind]
  dsimp only
  unfold getOrCreateTacticsForTeam
  rw [if_neg (by rw [hid]; exact hb)]
  dsimp only
  cases hl : alistLookup st.tacticsByTeam tB.id with
  | some t =>
    dsimp only
    refine ⟨by rw [lr_schedule], by rw [lr_scores], by rw [lr_progressTurns],
      by rw [lr_postseason], ?_, ?_⟩
    · rw [lr_tactics]
    · rw [lr_tactics]
      dsimp only
      rw [hl]
      rfl
  | none =>
    dsimp only
    refine ⟨by rw [lr_schedule], by rw [lr_scores], by rw [lr_progressTurns],
      by rw [lr_postseason], ?_, ?_⟩
    · rw [lr_tactics]
      dsimp only
      exact alistLookup_append_single st.tacticsByTeam tB.id a getDefaultTactics
        (by rw [hid]; exact hab)
    · rw [lr_tactics]
      dsimp only
      rw [alistLookup_append_self st.tacticsByTeam tB.id getDefaultTactics hl]
      rfl

/-- Witness for C6 (amended): switching from the Hawks to the Celtics
resets the schedule to an empty Celtics schedule while the Hawks' stored
profile survives and the Celtics get a default profile. -/
theorem selectTeam_resets_schedule_not_tactics_witness :
    (selectTeam none "BOS" cexSelectState).schedule
      = { teamId := some "BOS", games := [], currentIndex := 0 }
    ∧ alistLookup (selectTeam none "BOS" cexSelectState).tacticsByTeam "ATL"
        = alistLookup cexSelectState.tacticsByTeam "ATL"
    ∧ alistLookup (selectTeam none "BOS" cexSelectState).tacticsByTeam "BOS"
        = some ((alistLookup cexSelectState.tacticsByTeam "BOS").getD getDefaultTactics) := by
  have h := selectTeam_resets_schedule_not_tactics cexSelectState "ATL" "BOS"
    { id := "BOS", name := "Boston Celtics" } none (by decide) (by decide) (by decide)
  exact ⟨h.1, h.2.2.2.2.1, h.2.2.2.2.2⟩

end Trade
